import Mathlib

/-
  Verification of the matrix recovery and classification engine of
  dmc4-camera-proxy (src/d3d9_proxy.cpp).

  Shallow embedding conventions:
  * IEEE `float` values are modelled as real numbers; `std::isfinite`
    checks are therefore always true and are dropped.
  * `sqrtf`, `atanf`, `tanf` are modelled by `Real.sqrt`, `Real.arctan`,
    `Real.tan`.
  * `UINT` quantities (register indices, vector counts) are modelled as
    `Nat`, `int` quantities (row counts, configured registers, frame
    counters) as `Int`.  None of the verified claims depends on 32-bit
    wrap-around.
  * Functions that report failure through a `bool` return value and an
    out-parameter are modelled as `Option`-returning functions; predicates
    that the source computes as `bool` are modelled as `Prop` (each listed
    conjunct is the pass-direction of one early-return check, in source
    order).
-/

set_option genSizeOfSpec false

set_option genInjectivity false

open scoped Classical

noncomputable section

/-- 4x4 row-major matrix of floats (`D3DMATRIX`).  Field `mij` models `_ij`. -/
structure Mat4 where
  m11 : ℝ
  m12 : ℝ
  m13 : ℝ
  m14 : ℝ
  m21 : ℝ
  m22 : ℝ
  m23 : ℝ
  m24 : ℝ
  m31 : ℝ
  m32 : ℝ
  m33 : ℝ
  m34 : ℝ
  m41 : ℝ
  m42 : ℝ
  m43 : ℝ
  m44 : ℝ

/-- `Dot3` from d3d9_proxy.cpp. -/
def Dot3 (ax ay az bx by' bz : ℝ) : ℝ :=
  ax * bx + ay * by' + az * bz

/-- `Determinant3x3` from d3d9_proxy.cpp. -/
def Determinant3x3 (m : Mat4) : ℝ :=
  m.m11 * (m.m22 * m.m33 - m.m23 * m.m32) -
    m.m12 * (m.m21 * m.m33 - m.m23 * m.m31) +
    m.m13 * (m.m21 * m.m32 - m.m22 * m.m31)

/-- `CreateIdentityMatrix` from d3d9_proxy.cpp. -/
def identityMatrix : Mat4 where
  m11 := 1
  m12 := 0
  m13 := 0
  m14 := 0
  m21 := 0
  m22 := 1
  m23 := 0
  m24 := 0
  m31 := 0
  m32 := 0
  m33 := 1
  m34 := 0
  m41 := 0
  m42 := 0
  m43 := 0
  m44 := 1

/-- `TransposeMatrix` from d3d9_proxy.cpp. -/
def TransposeMatrix (mat : Mat4) : Mat4 where
  m11 := mat.m11
  m12 := mat.m21
  m13 := mat.m31
  m14 := mat.m41
  m21 := mat.m12
  m22 := mat.m22
  m23 := mat.m32
  m24 := mat.m42
  m31 := mat.m13
  m32 := mat.m23
  m33 := mat.m33
  m34 := mat.m43
  m41 := mat.m14
  m42 := mat.m24
  m43 := mat.m34
  m44 := mat.m44

/-- `MultiplyMatrix` from d3d9_proxy.cpp (row-vector convention, `out = a*b`). -/
def MultiplyMatrix (a b : Mat4) : Mat4 where
  m11 := a.m11 * b.m11 + a.m12 * b.m21 + a.m13 * b.m31 + a.m14 * b.m41
  m12 := a.m11 * b.m12 + a.m12 * b.m22 + a.m13 * b.m32 + a.m14 * b.m42
  m13 := a.m11 * b.m13 + a.m12 * b.m23 + a.m13 * b.m33 + a.m14 * b.m43
  m14 := a.m11 * b.m14 + a.m12 * b.m24 + a.m13 * b.m34 + a.m14 * b.m44
  m21 := a.m21 * b.m11 + a.m22 * b.m21 + a.m23 * b.m31 + a.m24 * b.m41
  m22 := a.m21 * b.m12 + a.m22 * b.m22 + a.m23 * b.m32 + a.m24 * b.m42
  m23 := a.m21 * b.m13 + a.m22 * b.m23 + a.m23 * b.m33 + a.m24 * b.m43
  m24 := a.m21 * b.m14 + a.m22 * b.m24 + a.m23 * b.m34 + a.m24 * b.m44
  m31 := a.m31 * b.m11 + a.m32 * b.m21 + a.m33 * b.m31 + a.m34 * b.m41
  m32 := a.m31 * b.m12 + a.m32 * b.m22 + a.m33 * b.m32 + a.m34 * b.m42
  m33 := a.m31 * b.m13 + a.m32 * b.m23 + a.m33 * b.m33 + a.m34 * b.m43
  m34 := a.m31 * b.m14 + a.m32 * b.m24 + a.m33 * b.m34 + a.m34 * b.m44
  m41 := a.m41 * b.m11 + a.m42 * b.m21 + a.m43 * b.m31 + a.m44 * b.m41
  m42 := a.m41 * b.m12 + a.m42 * b.m22 + a.m43 * b.m32 + a.m44 * b.m42
  m43 := a.m41 * b.m13 + a.m42 * b.m23 + a.m43 * b.m33 + a.m44 * b.m43
  m44 := a.m41 * b.m14 + a.m42 * b.m24 + a.m43 * b.m34 + a.m44 * b.m44

/-- `ProjectionHandedness` from d3d9_proxy.cpp. -/
inductive ProjectionHandedness where
  | unknown
  | left
  | right
  deriving DecidableEq

/-- `ProjectionAnalysis` from d3d9_proxy.cpp (the `valid` flag is folded into
the surrounding `Option`). -/
structure ProjectionAnalysis where
  fovRadians : ℝ
  handedness : ProjectionHandedness

/-- `MatrixClassification` from d3d9_proxy.cpp. -/
inductive MatrixClassification where
  | none
  | world
  | view
  | projection
  | combinedPerspective
  deriving DecidableEq

/-- `GameProfileKind` from d3d9_proxy.cpp. -/
inductive GameProfileKind where
  | noneProfile
  | metalGearRising
  | devilMayCry4
  | barnyard
  deriving DecidableEq

/-- The fields of `ProxyConfig` (and the two global probe switches) that the
detection engine reads. -/
structure ProxyConfig where
  viewMatrixRegister : ℤ
  projMatrixRegister : ℤ
  worldMatrixRegister : ℤ
  minFOV : ℝ
  maxFOV : ℝ
  emitFixedFunctionTransforms : Bool
  setTransformBypassProxyWhenGameProvides : Bool
  enableCombinedMVP : Bool
  combinedMVPRequireWorld : Bool
  combinedMVPAssumeIdentityWorld : Bool
  combinedMVPForceDecomposition : Bool
  experimentalCustomProjectionEnabled : Bool
  experimentalCustomProjectionOverrideDetectedProjection : Bool
  experimentalCustomProjectionOverrideCombinedMVP : Bool
  experimentalCustomProjectionAutoNearZ : ℝ
  experimentalCustomProjectionAutoFarZ : ℝ
  experimentalInverseViewAsWorld : Bool
  experimentalInverseViewAsWorldAllowUnverified : Bool
  experimentalInverseViewAsWorldFast : Bool
  probeTransposedLayouts : Bool
  probeInverseView : Bool
  barnyardUseGameSetTransformsForViewProjection : Bool

/-- The in-code defaults of the modelled `ProxyConfig` fields (d3d9_proxy.cpp
struct initialisers; `g_probeTransposedLayouts`/`g_probeInverseView` default
to true). -/
def defaultConfig : ProxyConfig where
  viewMatrixRegister := -1
  projMatrixRegister := -1
  worldMatrixRegister := -1
  minFOV := 0.1
  maxFOV := 2.5
  emitFixedFunctionTransforms := true
  setTransformBypassProxyWhenGameProvides := false
  enableCombinedMVP := false
  combinedMVPRequireWorld := false
  combinedMVPAssumeIdentityWorld := true
  combinedMVPForceDecomposition := false
  experimentalCustomProjectionEnabled := false
  experimentalCustomProjectionOverrideDetectedProjection := false
  experimentalCustomProjectionOverrideCombinedMVP := false
  experimentalCustomProjectionAutoNearZ := 0.1
  experimentalCustomProjectionAutoFarZ := 1000
  experimentalInverseViewAsWorld := false
  experimentalInverseViewAsWorldAllowUnverified := false
  experimentalInverseViewAsWorldFast := false
  probeTransposedLayouts := true
  probeInverseView := true
  barnyardUseGameSetTransformsForViewProjection := true

/-- `kMaxConstantRegisters` from d3d9_proxy.cpp. -/
def kMaxConstantRegisters : ℤ := 256

/-- `TryBuildMatrixFromConstantUpdate` from d3d9_proxy.cpp: assemble a 4x4
matrix from `rows` consecutive registers of the current upload.  `data i` is
the i-th float of the upload payload (`constantData[i]`). -/
def TryBuildMatrixFromConstantUpdate (data : ℕ → ℝ) (startRegister vector4fCount : ℕ)
    (baseRegister rows : ℤ) (transposed : Bool) : Option Mat4 :=
  if rows < 3 ∨ 4 < rows then Option.none
  else if baseRegister < 0 then Option.none
  else if (startRegister : ℤ) > baseRegister ∨
      (startRegister : ℤ) + (vector4fCount : ℤ) < baseRegister + rows then Option.none
  else
    let m : ℕ → ℝ := fun i => data ((baseRegister.toNat - startRegister) * 4 + i)
    if transposed then
      some { m11 := m 0, m21 := m 1, m31 := m 2, m41 := m 3
             m12 := m 4, m22 := m 5, m32 := m 6, m42 := m 7
             m13 := m 8, m23 := m 9, m33 := m 10, m43 := m 11
             m14 := if rows = 4 then m 12 else 0
             m24 := if rows = 4 then m 13 else 0
             m34 := if rows = 4 then m 14 else 0
             m44 := if rows = 4 then m 15 else 1 }
    else
      some { m11 := m 0, m12 := m 1, m13 := m 2, m14 := m 3
             m21 := m 4, m22 := m 5, m23 := m 6, m24 := m 7
             m31 := m 8, m32 := m 9, m33 := m 10, m34 := m 11
             m41 := if rows = 4 then m 12 else 0
             m42 := if rows = 4 then m 13 else 0
             m43 := if rows = 4 then m 14 else 0
             m44 := if rows = 4 then m 15 else 1 }

/-- `ShaderConstantState` (the fields read by `TryBuildMatrixSnapshot`):
`constants r c` is `state.constants[r][c]` flattened as `constants (4*r+c)`,
`valid r` is the per-register validity flag. -/
structure ShaderConstantState where
  constants : ℕ → ℝ
  valid : ℕ → Bool
  snapshotReady : Bool

/-- `TryBuildMatrixSnapshot` from d3d9_proxy.cpp: assemble a matrix from the
register store snapshot (2D `constants` array read contiguously from
`&state.constants[baseRegister][0]`). -/
def TryBuildMatrixSnapshot (state : ShaderConstantState) (baseRegister rows : ℤ)
    (transposed : Bool) : Option Mat4 :=
  if state.snapshotReady = false ∨ baseRegister < 0 ∨ rows < 3 ∨ 4 < rows ∨
      kMaxConstantRegisters ≤ baseRegister + rows - 1 then Option.none
  else if ¬ (∀ i : ℕ, i < rows.toNat → state.valid (baseRegister.toNat + i) = true) then
    Option.none
  else
    let m : ℕ → ℝ := fun i => state.constants (baseRegister.toNat * 4 + i)
    if transposed then
      some { m11 := m 0, m21 := m 1, m31 := m 2, m41 := m 3
             m12 := m 4, m22 := m 5, m32 := m 6, m42 := m 7
             m13 := m 8, m23 := m 9, m33 := m 10, m43 := m 11
             m14 := if rows = 4 then m 12 else 0
             m24 := if rows = 4 then m 13 else 0
             m34 := if rows = 4 then m 14 else 0
             m44 := if rows = 4 then m 15 else 1 }
    else
      some { m11 := m 0, m12 := m 1, m13 := m 2, m14 := m 3
             m21 := m 4, m22 := m 5, m23 := m 6, m24 := m 7
             m31 := m 8, m32 := m 9, m33 := m 10, m34 := m 11
             m41 := if rows = 4 then m 12 else 0
             m42 := if rows = 4 then m 13 else 0
             m43 := if rows = 4 then m 14 else 0
             m44 := if rows = 4 then m 15 else 1 }

/-- `LooksLikeViewStrict` from d3d9_proxy.cpp: each conjunct is the pass
direction of one early-return check, in source order. -/
def LooksLikeViewStrict (m : Mat4) : Prop :=
  |Real.sqrt (Dot3 m.m11 m.m12 m.m13 m.m11 m.m12 m.m13) - 1| ≤ 0.05 ∧
  |Real.sqrt (Dot3 m.m21 m.m22 m.m23 m.m21 m.m22 m.m23) - 1| ≤ 0.05 ∧
  |Real.sqrt (Dot3 m.m31 m.m32 m.m33 m.m31 m.m32 m.m33) - 1| ≤ 0.05 ∧
  |Dot3 m.m11 m.m12 m.m13 m.m21 m.m22 m.m23| ≤ 0.05 ∧
  |Dot3 m.m11 m.m12 m.m13 m.m31 m.m32 m.m33| ≤ 0.05 ∧
  |Dot3 m.m21 m.m22 m.m23 m.m31 m.m32 m.m33| ≤ 0.05 ∧
  |m.m14| ≤ 0.01 ∧ |m.m24| ≤ 0.01 ∧ |m.m34| ≤ 0.01 ∧
  |m.m44 - 1| ≤ 0.01 ∧
  |Determinant3x3 m - 1| ≤ 0.1

/-- The recovered field of view `2*atan(1/|m22|)` used by
`AnalyzeProjectionMatrixNumeric`. -/
def recoveredFov (m : Mat4) : ℝ :=
  2 * Real.arctan (1 / |m.m22|)

/-- The pass condition of `AnalyzeProjectionMatrixNumeric` (kZeroEpsilon =
0.02, kPerspectiveEpsilon = 0.05); one conjunct per early-return check, in
source order; the `isfinite` checks are dropped (reals are finite). -/
def ProjectionShapeOk (m : Mat4) : Prop :=
  |m.m12| ≤ 0.02 ∧ |m.m13| ≤ 0.02 ∧
  |m.m21| ≤ 0.02 ∧ |m.m23| ≤ 0.02 ∧
  |m.m31| ≤ 0.02 ∧ |m.m32| ≤ 0.02 ∧
  |m.m14| ≤ 0.02 ∧ |m.m24| ≤ 0.02 ∧
  abs (|m.m34| - 1) ≤ 0.05 ∧
  |m.m44| ≤ 0.05 ∧
  0.001 ≤ |m.m11| ∧ 0.001 ≤ |m.m22| ∧
  0.0001 ≤ |m.m33| ∧ 0.0001 ≤ |m.m43| ∧
  0.01 ≤ recoveredFov m ∧ recoveredFov m ≤ 3.13

/-- `AnalyzeProjectionMatrixNumeric` from d3d9_proxy.cpp. -/
def AnalyzeProjectionMatrixNumeric (m : Mat4) : Option ProjectionAnalysis :=
  if ProjectionShapeOk m then
    some { fovRadians := recoveredFov m
           handedness := if 0 ≤ m.m34 then ProjectionHandedness.left
                         else ProjectionHandedness.right }
  else Option.none

/-- `LooksLikeProjectionStrict` from d3d9_proxy.cpp: it calls
`AnalyzeProjectionMatrixNumeric(m, nullptr)`, i.e. tests exactly the shape
condition. -/
def LooksLikeProjectionStrict (m : Mat4) : Prop :=
  ProjectionShapeOk m

/-- `HasPerspectiveComponent` from d3d9_proxy.cpp. -/
def HasPerspectiveComponent (m : Mat4) : Prop :=
  0.5 < |m.m34| ∧ |m.m44| < 0.5

/-- `IsAffineMatrixNoPerspective` from d3d9_proxy.cpp. -/
def IsAffineMatrixNoPerspective (m : Mat4) : Prop :=
  |m.m14| < 0.02 ∧ |m.m24| < 0.02 ∧ |m.m34| < 0.02 ∧ |m.m44 - 1| < 0.02

/-- `IsLikelyBoneTransform` from d3d9_proxy.cpp. -/
def IsLikelyBoneTransform (m : Mat4) (rows : ℤ)
    (vectorCountInUpload uploadStartReg candidateBaseReg : ℕ) : Prop :=
  IsAffineMatrixNoPerspective m ∧
  (|Real.sqrt (Dot3 m.m11 m.m12 m.m13 m.m11 m.m12 m.m13) - 1| < 0.25 ∧
   |Real.sqrt (Dot3 m.m21 m.m22 m.m23 m.m21 m.m22 m.m23) - 1| < 0.25 ∧
   |Real.sqrt (Dot3 m.m31 m.m32 m.m33 m.m31 m.m32 m.m33) - 1| < 0.25) ∧
  (8 ≤ vectorCountInUpload ∧ uploadStartReg ≤ candidateBaseReg ∧
   candidateBaseReg + rows.toNat ≤ uploadStartReg + vectorCountInUpload)

/-- `LooksLikeWorldStrict` from d3d9_proxy.cpp. -/
def LooksLikeWorldStrict (m : Mat4) (rows : ℤ)
    (vectorCountInUpload uploadStartReg candidateBaseReg : ℕ) : Prop :=
  IsAffineMatrixNoPerspective m ∧
  ¬ LooksLikeViewStrict m ∧
  0.0001 ≤ |Determinant3x3 m| ∧
  ¬ IsLikelyBoneTransform m rows vectorCountInUpload uploadStartReg candidateBaseReg

/-- `ClassifyMatrixDeterministic` from d3d9_proxy.cpp: the priority-ordered
structural classifier. -/
def ClassifyMatrixDeterministic (m : Mat4) (rows : ℤ)
    (vectorCountInUpload uploadStartReg candidateBaseReg : ℕ) : MatrixClassification :=
  if LooksLikeProjectionStrict m then MatrixClassification.projection
  else if HasPerspectiveComponent m then MatrixClassification.combinedPerspective
  else if LooksLikeViewStrict m then MatrixClassification.view
  else if LooksLikeWorldStrict m rows vectorCountInUpload uploadStartReg candidateBaseReg then
    MatrixClassification.world
  else MatrixClassification.none

/-- `IsThreeRowPrefixOfPerspectiveMatrix` from d3d9_proxy.cpp. -/
def IsThreeRowPrefixOfPerspectiveMatrix (data : ℕ → ℝ)
    (startReg vectorCount candidateBaseReg : ℕ) (transposedLayout : Bool) : Prop :=
  4 ≤ vectorCount ∧
  startReg ≤ candidateBaseReg ∧
  (candidateBaseReg - startReg) + 4 ≤ vectorCount ∧
  (match TryBuildMatrixFromConstantUpdate
      (fun i => data ((candidateBaseReg - startReg) * 4 + i))
      candidateBaseReg 4 (candidateBaseReg : ℤ) 4 transposedLayout with
   | Option.none => False
   | some candidate4x4 =>
       ClassifyMatrixDeterministic candidate4x4 4 vectorCount startReg candidateBaseReg =
         MatrixClassification.projection ∨
       ClassifyMatrixDeterministic candidate4x4 4 vectorCount startReg candidateBaseReg =
         MatrixClassification.combinedPerspective ∨
       ClassifyMatrixDeterministic (TransposeMatrix candidate4x4) 4 vectorCount startReg
         candidateBaseReg = MatrixClassification.projection ∨
       ClassifyMatrixDeterministic (TransposeMatrix candidate4x4) 4 vectorCount startReg
         candidateBaseReg = MatrixClassification.combinedPerspective)

/-- Loop body of `CountStridedCandidates` (recursion on fuel; the loop
variable is `offset`, advanced by `strideRows` per iteration, and `acc` is
the running `count`).  The early `return count` of the source fires as soon
as `count > 1`. -/
def CountStridedAux (data : ℕ → ℝ) (startReg vectorCount strideRows : ℕ)
    (targetClass : MatrixClassification) : ℕ → ℕ → ℕ → ℕ
  | 0, _, acc => acc
  | fuel + 1, offset, acc =>
    if offset + strideRows ≤ vectorCount then
      match TryBuildMatrixFromConstantUpdate (fun i => data (offset * 4 + i))
          (startReg + offset) strideRows ((startReg + offset : ℕ) : ℤ) (strideRows : ℤ)
          false with
      | Option.none => CountStridedAux data startReg vectorCount strideRows targetClass
          fuel (offset + strideRows) acc
      | some candidate =>
        let cls := ClassifyMatrixDeterministic candidate (strideRows : ℤ) vectorCount
          startReg (startReg + offset)
        if strideRows = 3 ∧
            (cls = MatrixClassification.view ∨ cls = MatrixClassification.world) ∧
            IsThreeRowPrefixOfPerspectiveMatrix data startReg vectorCount
              (startReg + offset) false then
          CountStridedAux data startReg vectorCount strideRows targetClass
            fuel (offset + strideRows) acc
        else if cls = targetClass then
          if 1 < acc + 1 then acc + 1
          else CountStridedAux data startReg vectorCount strideRows targetClass
            fuel (offset + strideRows) (acc + 1)
        else CountStridedAux data startReg vectorCount strideRows targetClass
          fuel (offset + strideRows) acc
    else acc

/-- `CountStridedCandidates` from d3d9_proxy.cpp: count disjoint
stride-aligned windows of the upload that classify as `targetClass`
(returning early once the count exceeds 1). -/
def CountStridedCandidates (data : ℕ → ℝ) (startReg vectorCount strideRows : ℕ)
    (targetClass : MatrixClassification) : ℕ :=
  CountStridedAux data startReg vectorCount strideRows targetClass (vectorCount + 1) 0 0

/-- The local `p_c0` of `CrossValidateViewAgainstProjection`: Euclidean norm
of the first column of the known projection's upper 3x3 block. -/
def p_c0 (knownProjection : Mat4) : ℝ :=
  Real.sqrt (knownProjection.m11 * knownProjection.m11 +
    knownProjection.m21 * knownProjection.m21 +
    knownProjection.m31 * knownProjection.m31)

/-- The local `p_c1` of `CrossValidateViewAgainstProjection`: Euclidean norm
of the second column of the known projection's upper 3x3 block. -/
def p_c1 (knownProjection : Mat4) : ℝ :=
  Real.sqrt (knownProjection.m12 * knownProjection.m12 +
    knownProjection.m22 * knownProjection.m22 +
    knownProjection.m32 * knownProjection.m32)

/-- The local `vp_c0` of `CrossValidateViewAgainstProjection`: Euclidean norm
of the first column of `candidateView * knownProjection`'s upper 3x3 block. -/
def vp_c0 (candidateView knownProjection : Mat4) : ℝ :=
  let vp := MultiplyMatrix candidateView knownProjection
  Real.sqrt (vp.m11 * vp.m11 + vp.m21 * vp.m21 + vp.m31 * vp.m31)

/-- The local `vp_c1` of `CrossValidateViewAgainstProjection`. -/
def vp_c1 (candidateView knownProjection : Mat4) : ℝ :=
  let vp := MultiplyMatrix candidateView knownProjection
  Real.sqrt (vp.m12 * vp.m12 + vp.m22 * vp.m22 + vp.m32 * vp.m32)

/-- `CrossValidateViewAgainstProjection` from d3d9_proxy.cpp: accept when
either projection column norm is degenerate (guard), or when the relative
difference of both column norms of `candidateView * knownProjection` against
those of `knownProjection` stays below 15%. -/
def CrossValidateViewAgainstProjection (candidateView knownProjection : Mat4) : Prop :=
  p_c0 knownProjection < 1e-6 ∨ p_c1 knownProjection < 1e-6 ∨
    (|vp_c0 candidateView knownProjection - p_c0 knownProjection| / p_c0 knownProjection <
        0.15 ∧
     |vp_c1 candidateView knownProjection - p_c1 knownProjection| / p_c1 knownProjection <
        0.15)

/-- `ExtractFOV` from d3d9_proxy.cpp. -/
def ExtractFOV (proj : Mat4) : ℝ :=
  if |proj.m22| < 0.001 then 0 else 2 * Real.arctan (1 / |proj.m22|)

/-- `CreateProjectionMatrix` from d3d9_proxy.cpp (left-handed canonical
perspective projection). -/
def CreateProjectionMatrix (fovY aspect zNear zFar : ℝ) : Mat4 :=
  let yScale := 1 / Real.tan (fovY / 2)
  let xScale := yScale / aspect
  { m11 := xScale, m12 := 0, m13 := 0, m14 := 0
    m21 := 0, m22 := yScale, m23 := 0, m24 := 0
    m31 := 0, m32 := 0, m33 := zFar / (zFar - zNear), m34 := 1
    m41 := 0, m42 := 0, m43 := -zNear * zFar / (zFar - zNear), m44 := 0 }

/-- `CreateProjectionMatrixWithHandedness` from d3d9_proxy.cpp. -/
def CreateProjectionMatrixWithHandedness (fovY aspect zNear zFar : ℝ)
    (handedness : ProjectionHandedness) : Mat4 :=
  let base := CreateProjectionMatrix fovY aspect zNear zFar
  if handedness = ProjectionHandedness.right then
    { base with m33 := zFar / (zNear - zFar), m34 := -1
                m43 := zNear * zFar / (zNear - zFar) }
  else base

/-- `IsTypicalProjectionMatrix` from d3d9_proxy.cpp: strict numeric shape
plus configured FOV bounds plus the loose perspective-term check. -/
def IsTypicalProjectionMatrix (cfg : ProxyConfig) (m : Mat4) : Prop :=
  match AnalyzeProjectionMatrixNumeric m with
  | Option.none => False
  | some analysis =>
      cfg.minFOV ≤ analysis.fovRadians ∧ analysis.fovRadians ≤ cfg.maxFOV ∧
      |m.m14| ≤ 0.05 ∧ |m.m24| ≤ 0.05 ∧ |m.m44| ≤ 0.05 ∧
      abs (|m.m34| - 1) ≤ 0.05


/-- `InvertMatrix4x4Deterministic` from d3d9_proxy.cpp: cofactor-expansion
4x4 inverse; fails when `|det| <= 1e-8`.  The flattened indices `m[0..15]`
of the source are row-major (`m[0] = _11`, ..., `m[15] = _44`). -/
def InvertMatrix4x4Deterministic (inMat : Mat4) : Option Mat4 :=
  let m0 := inMat.m11
  let m1 := inMat.m12
  let m2 := inMat.m13
  let m3 := inMat.m14
  let m4 := inMat.m21
  let m5 := inMat.m22
  let m6 := inMat.m23
  let m7 := inMat.m24
  let m8 := inMat.m31
  let m9 := inMat.m32
  let m10 := inMat.m33
  let m11 := inMat.m34
  let m12 := inMat.m41
  let m13 := inMat.m42
  let m14 := inMat.m43
  let m15 := inMat.m44
  let inv0 := m5 * m10 * m15 - m5 * m11 * m14 - m9 * m6 * m15 +
    m9 * m7 * m14 + m13 * m6 * m11 - m13 * m7 * m10
  let inv4 := -(m4 * m10 * m15) + m4 * m11 * m14 + m8 * m6 * m15 -
    m8 * m7 * m14 - m12 * m6 * m11 + m12 * m7 * m10
  let inv8 := m4 * m9 * m15 - m4 * m11 * m13 - m8 * m5 * m15 +
    m8 * m7 * m13 + m12 * m5 * m11 - m12 * m7 * m9
  let inv12 := -(m4 * m9 * m14) + m4 * m10 * m13 + m8 * m5 * m14 -
    m8 * m6 * m13 - m12 * m5 * m10 + m12 * m6 * m9
  let inv1 := -(m1 * m10 * m15) + m1 * m11 * m14 + m9 * m2 * m15 -
    m9 * m3 * m14 - m13 * m2 * m11 + m13 * m3 * m10
  let inv5 := m0 * m10 * m15 - m0 * m11 * m14 - m8 * m2 * m15 +
    m8 * m3 * m14 + m12 * m2 * m11 - m12 * m3 * m10
  let inv9 := -(m0 * m9 * m15) + m0 * m11 * m13 + m8 * m1 * m15 -
    m8 * m3 * m13 - m12 * m1 * m11 + m12 * m3 * m9
  let inv13 := m0 * m9 * m14 - m0 * m10 * m13 - m8 * m1 * m14 +
    m8 * m2 * m13 + m12 * m1 * m10 - m12 * m2 * m9
  let inv2 := m1 * m6 * m15 - m1 * m7 * m14 - m5 * m2 * m15 +
    m5 * m3 * m14 + m13 * m2 * m7 - m13 * m3 * m6
  let inv6 := -(m0 * m6 * m15) + m0 * m7 * m14 + m4 * m2 * m15 -
    m4 * m3 * m14 - m12 * m2 * m7 + m12 * m3 * m6
  let inv10 := m0 * m5 * m15 - m0 * m7 * m13 - m4 * m1 * m15 +
    m4 * m3 * m13 + m12 * m1 * m7 - m12 * m3 * m5
  let inv14 := -(m0 * m5 * m14) + m0 * m6 * m13 + m4 * m1 * m14 -
    m4 * m2 * m13 - m12 * m1 * m6 + m12 * m2 * m5
  let inv3 := -(m1 * m6 * m11) + m1 * m7 * m10 + m5 * m2 * m11 -
    m5 * m3 * m10 - m9 * m2 * m7 + m9 * m3 * m6
  let inv7 := m0 * m6 * m11 - m0 * m7 * m10 - m4 * m2 * m11 +
    m4 * m3 * m10 + m8 * m2 * m7 - m8 * m3 * m6
  let inv11 := -(m0 * m5 * m11) + m0 * m7 * m9 + m4 * m1 * m11 -
    m4 * m3 * m9 - m8 * m1 * m7 + m8 * m3 * m5
  let inv15 := m0 * m5 * m10 - m0 * m6 * m9 - m4 * m1 * m10 +
    m4 * m2 * m9 + m8 * m1 * m6 - m8 * m2 * m5
  let det := m0 * inv0 + m1 * inv4 + m2 * inv8 + m3 * inv12
  if |det| ≤ 1e-8 then Option.none
  else
    let detInv := 1 / det
    some { m11 := inv0 * detInv, m12 := inv1 * detInv
           m13 := inv2 * detInv, m14 := inv3 * detInv
           m21 := inv4 * detInv, m22 := inv5 * detInv
           m23 := inv6 * detInv, m24 := inv7 * detInv
           m31 := inv8 * detInv, m32 := inv9 * detInv
           m33 := inv10 * detInv, m34 := inv11 * detInv
           m41 := inv12 * detInv, m42 := inv13 * detInv
           m43 := inv14 * detInv, m44 := inv15 * detInv }

/-- `InvertSimpleRigidView` from d3d9_proxy.cpp: rigid-transform inverse
(rotation transpose, translation re-projected). -/
def InvertSimpleRigidView (view : Mat4) : Mat4 :=
  let o11 := view.m11
  let o12 := view.m21
  let o13 := view.m31
  let o21 := view.m12
  let o22 := view.m22
  let o23 := view.m32
  let o31 := view.m13
  let o32 := view.m23
  let o33 := view.m33
  { m11 := o11, m12 := o12, m13 := o13, m14 := 0
    m21 := o21, m22 := o22, m23 := o23, m24 := 0
    m31 := o31, m32 := o32, m33 := o33, m34 := 0
    m41 := -(view.m41 * o11 + view.m42 * o21 + view.m43 * o31)
    m42 := -(view.m41 * o12 + view.m42 * o22 + view.m43 * o32)
    m43 := -(view.m41 * o13 + view.m42 * o23 + view.m43 * o33)
    m44 := 1 }

/-- `ViewMatrixCanUseFastInverse` from d3d9_proxy.cpp. -/
def ViewMatrixCanUseFastInverse (view : Mat4) : Prop :=
  |Real.sqrt (Dot3 view.m11 view.m12 view.m13 view.m11 view.m12 view.m13) - 1| ≤ 0.05 ∧
  |Real.sqrt (Dot3 view.m21 view.m22 view.m23 view.m21 view.m22 view.m23) - 1| ≤ 0.05 ∧
  |Real.sqrt (Dot3 view.m31 view.m32 view.m33 view.m31 view.m32 view.m33) - 1| ≤ 0.05 ∧
  |Dot3 view.m11 view.m12 view.m13 view.m21 view.m22 view.m23| ≤ 0.05 ∧
  |Dot3 view.m11 view.m12 view.m13 view.m31 view.m32 view.m33| ≤ 0.05 ∧
  |Dot3 view.m21 view.m22 view.m23 view.m31 view.m32 view.m33| ≤ 0.05 ∧
  |view.m14| ≤ 0.01 ∧ |view.m24| ≤ 0.01 ∧ |view.m34| ≤ 0.01 ∧ |view.m44 - 1| ≤ 0.01

/-- `TryBuildWorldFromView` from d3d9_proxy.cpp (the two diagnostic
out-parameters `outUsedFast`/`outFastEligible` are dropped). -/
def TryBuildWorldFromView (view : Mat4) (preferFastInverse : Bool) : Option Mat4 :=
  if preferFastInverse = true ∧ ViewMatrixCanUseFastInverse view then
    some (InvertSimpleRigidView view)
  else InvertMatrix4x4Deterministic view

/-- `OrthonormalizeViewMatrix` from d3d9_proxy.cpp: Gram-Schmidt on the first
two rotation rows, third row from their cross product, translation
re-projected onto the new basis. -/
def OrthonormalizeViewMatrix (view : Mat4) : Mat4 :=
  let origTx := view.m41
  let origTy := view.m42
  let origTz := view.m43
  let len0 := Real.sqrt (Dot3 view.m11 view.m12 view.m13 view.m11 view.m12 view.m13)
  let r0x := if 1e-6 < len0 then view.m11 / len0 else view.m11
  let r0y := if 1e-6 < len0 then view.m12 / len0 else view.m12
  let r0z := if 1e-6 < len0 then view.m13 / len0 else view.m13
  let dot01 := Dot3 view.m21 view.m22 view.m23 r0x r0y r0z
  let r1x' := view.m21 - dot01 * r0x
  let r1y' := view.m22 - dot01 * r0y
  let r1z' := view.m23 - dot01 * r0z
  let len1 := Real.sqrt (Dot3 r1x' r1y' r1z' r1x' r1y' r1z')
  let r1x := if 1e-6 < len1 then r1x' / len1 else r1x'
  let r1y := if 1e-6 < len1 then r1y' / len1 else r1y'
  let r1z := if 1e-6 < len1 then r1z' / len1 else r1z'
  let r2x := r0y * r1z - r0z * r1y
  let r2y := r0z * r1x - r0x * r1z
  let r2z := r0x * r1y - r0y * r1x
  { m11 := r0x, m12 := r0y, m13 := r0z, m14 := 0
    m21 := r1x, m22 := r1y, m23 := r1z, m24 := 0
    m31 := r2x, m32 := r2y, m33 := r2z, m34 := 0
    m41 := Dot3 origTx origTy origTz r0x r0y r0z
    m42 := Dot3 origTx origTy origTz r1x r1y r1z
    m43 := Dot3 origTx origTy origTz r2x r2y r2z
    m44 := 1 }

/-- The common tail of `TryExtractProjectionFromCombined` operating on the
already world-stripped `extractionMatrix`: scale factors from the first two
rows, FOV/aspect recovery, handedness from the 3x3 determinant sign, and
synthesis of a canonical projection from the recovered parameters. -/
def ProjectionExtractionTail (cfg : ProxyConfig) (extractionMatrix : Mat4)
    (forceDecomposition : Bool) : Option (ProjectionAnalysis × Mat4) :=
  if ¬ IsTypicalProjectionMatrix cfg extractionMatrix then Option.none
  else
    let sx := Real.sqrt (Dot3 extractionMatrix.m11 extractionMatrix.m12 extractionMatrix.m13
      extractionMatrix.m11 extractionMatrix.m12 extractionMatrix.m13)
    let sy := Real.sqrt (Dot3 extractionMatrix.m21 extractionMatrix.m22 extractionMatrix.m23
      extractionMatrix.m21 extractionMatrix.m22 extractionMatrix.m23)
    if sx < 1e-5 ∨ sy < 1e-5 then Option.none
    else
      let fov := 2 * Real.arctan (1 / sy)
      let aspect := sy / sx
      if forceDecomposition = false ∧ (fov < 0.01 ∨ 3.13 < fov) then Option.none
      else
        let det := Determinant3x3 extractionMatrix
        let handedness := if det < 0 then ProjectionHandedness.right
                          else ProjectionHandedness.left
        let nearZ := max 0.0001 cfg.experimentalCustomProjectionAutoNearZ
        let farZ := max (nearZ + 0.001) cfg.experimentalCustomProjectionAutoFarZ
        some ({ fovRadians := fov, handedness := handedness },
          CreateProjectionMatrixWithHandedness fov (max 0.1 aspect) nearZ farZ handedness)

/-- `TryExtractProjectionFromCombined` from d3d9_proxy.cpp.  The source's
`(worldOptional, worldAvailable)` pair is modelled as one `Option` (all call
sites pass `worldAvailable ? &world : nullptr` together with
`worldAvailable`).  When a world matrix is supplied its contribution is
removed (again) by a left-multiplied inverse; otherwise the combined matrix
must itself already pass the typical-projection test. -/
def TryExtractProjectionFromCombined (cfg : ProxyConfig) (combined : Mat4)
    (worldOpt : Option Mat4) (forceDecomposition : Bool) :
    Option (ProjectionAnalysis × Mat4) :=
  match worldOpt with
  | some w =>
    match InvertMatrix4x4Deterministic w with
    | Option.none => Option.none
    | some worldInv =>
        ProjectionExtractionTail cfg (MultiplyMatrix worldInv combined) forceDecomposition
  | Option.none =>
    if IsTypicalProjectionMatrix cfg combined then
      ProjectionExtractionTail cfg combined forceDecomposition
    else Option.none

/-- `TryDecomposeCombinedMVP` from d3d9_proxy.cpp: factor a combined MVP into
(world, view, projection, projection analysis).  With a world matrix
available, `viewProjection := mvp * world⁻¹`; otherwise world is taken as
identity and `viewProjection := mvp`.  Note that the extraction step is then
handed the world matrix again (the double removal flagged in the spec). -/
def TryDecomposeCombinedMVP (cfg : ProxyConfig) (mvp : Mat4) (worldOpt : Option Mat4) :
    Option (Mat4 × Mat4 × Mat4 × ProjectionAnalysis) :=
  let world := match worldOpt with
    | some w => w
    | Option.none => identityMatrix
  let vpOpt : Option Mat4 := match worldOpt with
    | some w =>
      (InvertMatrix4x4Deterministic w).map fun worldInv => MultiplyMatrix mvp worldInv
    | Option.none => some mvp
  match vpOpt with
  | Option.none => Option.none
  | some viewProjection =>
    match TryExtractProjectionFromCombined cfg viewProjection worldOpt
        cfg.combinedMVPForceDecomposition with
    | Option.none => Option.none
    | some (analysis, projection) =>
      match InvertMatrix4x4Deterministic projection with
      | Option.none => Option.none
      | some projectionInv =>
        some (world,
          OrthonormalizeViewMatrix (MultiplyMatrix projectionInv viewProjection),
          projection, analysis)

/-- The per-device detection state of `WrappedD3D9Device` (current matrix
bindings, validity flags, refresh frames, per-frame source locks).
`viewLockedShader = 0` / `projLockedShader = 0` means unlocked. -/
structure DeviceState where
  currentWorld : Mat4
  currentView : Mat4
  currentProj : Mat4
  hasWorld : Bool
  hasView : Bool
  hasProj : Bool
  worldLastFrame : ℤ
  viewLastFrame : ℤ
  projLastFrame : ℤ
  projDetectedFrame : ℤ
  viewLockedShader : ℕ
  viewLockedRegister : ℤ
  projLockedShader : ℕ
  projLockedRegister : ℤ

/-- The per-upload locals of `SetVertexShaderConstantF`: the two bone-palette
suppression flags and the `slotResolvedByOverride` / `slotResolvedStructurally`
arrays (fresh, all false, at the start of every upload event). -/
structure UploadFlags where
  suppressViewFromUpload : Bool
  suppressWorldFromUpload : Bool
  overrideWorld : Bool
  overrideView : Bool
  overrideProj : Bool
  structWorld : Bool
  structView : Bool
  structProj : Bool

/-- Fresh per-upload flags. -/
def freshUploadFlags : UploadFlags where
  suppressViewFromUpload := false
  suppressWorldFromUpload := false
  overrideWorld := false
  overrideView := false
  overrideProj := false
  structWorld := false
  structView := false
  structProj := false

/-- The `tryHandleCombinedMVP` lambda of `SetVertexShaderConstantF` (the
debug/logging globals and the `Store*Matrix` estimate mirrors are not part of
the modelled state; `baseReg`/`rows`/`transposed` are only used for those and
are dropped).  On decomposition failure the device state and flags are
returned unchanged. -/
def tryHandleCombinedMVP (cfg : ProxyConfig) (frameCount : ℤ) (st : DeviceState)
    (fl : UploadFlags) (combinedMvp : Mat4) : DeviceState × UploadFlags :=
  if cfg.enableCombinedMVP = false then (st, fl)
  else if st.hasWorld = true ∧ st.hasView = true ∧ st.hasProj = true then (st, fl)
  else if cfg.combinedMVPRequireWorld = true ∧ st.hasWorld = false then (st, fl)
  else
    match TryDecomposeCombinedMVP cfg combinedMvp
        (if st.hasWorld = true then some st.currentWorld else Option.none) with
    | Option.none => (st, fl)
    | some (w, v, p, _info) =>
      ({ st with currentWorld := w, currentView := v, currentProj := p
                 hasWorld := true, hasView := true, hasProj := true
                 worldLastFrame := frameCount, viewLastFrame := frameCount
                 projLastFrame := frameCount, projDetectedFrame := frameCount },
       { fl with structWorld := true, structView := true, structProj := true })

/-- The `updateFromClassification` lambda of `SetVertexShaderConstantF`:
classify one candidate window and update the matching slot subject to the
explicit-register overrides, the per-upload resolution flags, the per-frame
source locks, and (for View) the cross-validation against a Projection
accepted this frame. -/
def updateFromClassification (cfg : ProxyConfig) (frameCount : ℤ) (shaderKey : ℕ)
    (uploadStart vectorCount : ℕ) (st : DeviceState) (fl : UploadFlags)
    (mat : Mat4) (baseReg : ℕ) (rows : ℤ) : DeviceState × UploadFlags :=
  let cls := ClassifyMatrixDeterministic mat rows vectorCount uploadStart baseReg
  if cls = MatrixClassification.projection ∧ cfg.projMatrixRegister < 0 ∧
      fl.overrideProj = false ∧ fl.structProj = false then
    match AnalyzeProjectionMatrixNumeric mat with
    | Option.none => (st, fl)
    | some info =>
      if info.fovRadians < cfg.minFOV ∨ cfg.maxFOV < info.fovRadians then (st, fl)
      else if st.projLockedShader = 0 ∨
          (shaderKey = st.projLockedShader ∧ (baseReg : ℤ) = st.projLockedRegister) then
        ({ st with projLockedShader := shaderKey, projLockedRegister := (baseReg : ℤ)
                   currentProj := mat, hasProj := true
                   projLastFrame := frameCount, projDetectedFrame := frameCount },
         { fl with structProj := true })
      else (st, fl)
  else if cls = MatrixClassification.view ∧ fl.suppressViewFromUpload = false ∧
      cfg.viewMatrixRegister < 0 ∧ fl.overrideView = false ∧ fl.structView = false then
    if st.viewLockedShader = 0 ∨
        (shaderKey = st.viewLockedShader ∧ (baseReg : ℤ) = st.viewLockedRegister) then
      if st.hasProj = true ∧ st.projDetectedFrame = frameCount ∧
          ¬ CrossValidateViewAgainstProjection mat st.currentProj then
        (st, fl)
      else
        ({ st with viewLockedShader := shaderKey, viewLockedRegister := (baseReg : ℤ)
                   currentView := mat, hasView := true, viewLastFrame := frameCount },
         { fl with structView := true })
    else (st, fl)
  else if cls = MatrixClassification.world ∧ fl.suppressWorldFromUpload = false ∧
      cfg.worldMatrixRegister < 0 ∧ fl.overrideWorld = false ∧ fl.structWorld = false then
    ({ st with currentWorld := mat, hasWorld := true, worldLastFrame := frameCount },
     { fl with structWorld := true })
  else if cls = MatrixClassification.combinedPerspective ∧
      cfg.worldMatrixRegister < 0 ∧ cfg.viewMatrixRegister < 0 ∧ cfg.projMatrixRegister < 0 ∧
      fl.overrideWorld = false ∧ fl.overrideView = false ∧ fl.overrideProj = false ∧
      fl.structWorld = false ∧ fl.structView = false ∧ fl.structProj = false ∧ rows = 4 then
    tryHandleCombinedMVP cfg frameCount st fl mat
  else (st, fl)

/-- The three fixed-function transforms passed to `SetTransform` by one call
of `EmitFixedFunctionTransforms` (`Option.none` = the slot was not emitted). -/
structure EmittedTransforms where
  world : Option Mat4
  view : Option Mat4
  proj : Option Mat4

/-- `WrappedD3D9Device::EmitFixedFunctionTransforms` from d3d9_proxy.cpp.
External inputs that the source reads from globals or the device are passed
as parameters: `gameSetTransformAnySeen` (`g_gameSetTransformAnySeen`),
`hasMvp` (`g_cameraMatrices.hasMVP`), and `customProjection` (the result of
`BuildExperimentalCustomProjectionMatrix`, which depends on the live
viewport/window).  Status messages, logging and the `Store*Matrix` estimate
mirrors are not modelled.  Returns the emitted transforms and the device
state (the custom-projection path updates the projection binding). -/
def EmitFixedFunctionTransforms (cfg : ProxyConfig) (profile : GameProfileKind)
    (gameSetTransformAnySeen hasMvp : Bool) (customProjection : Option Mat4)
    (frameCount : ℤ) (st : DeviceState) : EmittedTransforms × DeviceState :=
  if cfg.emitFixedFunctionTransforms = false then
    ({ world := Option.none, view := Option.none, proj := Option.none }, st)
  else if cfg.setTransformBypassProxyWhenGameProvides = true ∧
      gameSetTransformAnySeen = true then
    ({ world := Option.none, view := Option.none, proj := Option.none }, st)
  else if profile = GameProfileKind.metalGearRising ∨
      profile = GameProfileKind.devilMayCry4 then
    if st.hasWorld = true ∧ st.hasView = true ∧ st.hasProj = true then
      ({ world := some st.currentWorld, view := some st.currentView
         proj := some st.currentProj }, st)
    else ({ world := Option.none, view := Option.none, proj := Option.none }, st)
  else if profile = GameProfileKind.barnyard then
    let useGameViewProj := cfg.barnyardUseGameSetTransformsForViewProjection
    if st.hasWorld = false ∨
        (useGameViewProj = true ∧ (st.hasView = false ∨ st.hasProj = false)) then
      ({ world := Option.none, view := Option.none, proj := Option.none }, st)
    else
      ({ world := some st.currentWorld
         view := if useGameViewProj = true then some st.currentView else Option.none
         proj := if useGameViewProj = true then some st.currentProj else Option.none }, st)
  else
    let shouldApplyCustomProjection :=
      cfg.experimentalCustomProjectionEnabled = true ∧
      (st.hasProj = false ∨
        cfg.experimentalCustomProjectionOverrideDetectedProjection = true) ∧
      ¬ (hasMvp = true ∧ cfg.experimentalCustomProjectionOverrideCombinedMVP = false)
    let st1 :=
      if shouldApplyCustomProjection then
        match customProjection with
        | some cp => { st with currentProj := cp, hasProj := true
                               projLastFrame := frameCount }
        | Option.none => st
      else st
    let emitWorld0 := if st1.hasWorld = true then st1.currentWorld else identityMatrix
    let emitView0 := if st1.hasView = true then st1.currentView else identityMatrix
    let emitProj0 := if st1.hasProj = true then st1.currentProj else identityMatrix
    let emitWorld1 :=
      if 0 ≤ st1.worldLastFrame ∧ st1.worldLastFrame + 1 < frameCount then identityMatrix
      else emitWorld0
    let emitView1 :=
      if 0 ≤ st1.viewLastFrame ∧ st1.viewLastFrame + 1 < frameCount then identityMatrix
      else emitView0
    let emitProj1 :=
      if 0 ≤ st1.projLastFrame ∧ st1.projLastFrame + 1 < frameCount then identityMatrix
      else emitProj0
    let emitWorld2 :=
      if cfg.experimentalInverseViewAsWorld = true ∧ st1.hasView = true then
        if LooksLikeViewStrict emitView1 ∨
            cfg.experimentalInverseViewAsWorldAllowUnverified = true then
          match TryBuildWorldFromView emitView1 cfg.experimentalInverseViewAsWorldFast with
          | some derivedWorld => derivedWorld
          | Option.none => emitWorld1
        else emitWorld1
      else emitWorld1
    ({ world := some emitWorld2, view := some emitView1, proj := some emitProj1 }, st1)


/-- The all-zero matrix (`D3DMATRIX out = {}`). -/
def zeroMat4 : Mat4 where
  m11 := 0
  m12 := 0
  m13 := 0
  m14 := 0
  m21 := 0
  m22 := 0
  m23 := 0
  m24 := 0
  m31 := 0
  m32 := 0
  m33 := 0
  m34 := 0
  m41 := 0
  m42 := 0
  m43 := 0
  m44 := 0

/-- The device detection state right after construction of
`WrappedD3D9Device`: identity bindings, no slot valid, refresh frames and
lock registers at -1, locks unset. -/
def initialDeviceState : DeviceState where
  currentWorld := identityMatrix
  currentView := identityMatrix
  currentProj := identityMatrix
  hasWorld := false
  hasView := false
  hasProj := false
  worldLastFrame := -1
  viewLastFrame := -1
  projLastFrame := -1
  projDetectedFrame := -1
  viewLockedShader := 0
  viewLockedRegister := -1
  projLockedShader := 0
  projLockedRegister := -1

/-- A proper 90-degree rotation about the z axis with zero translation and
homogeneous column (0,0,0,1): an orthonormal view matrix. -/
def matR90 : Mat4 where
  m11 := 0
  m12 := 1
  m13 := 0
  m14 := 0
  m21 := -1
  m22 := 0
  m23 := 0
  m24 := 0
  m31 := 0
  m32 := 0
  m33 := 1
  m34 := 0
  m41 := 0
  m42 := 0
  m43 := 0
  m44 := 1

/-- A canonical left-handed perspective projection matrix with unit scale
factors (FOV = pi/2, aspect 1, depth terms 2 and -1). -/
def matP1 : Mat4 where
  m11 := 1
  m12 := 0
  m13 := 0
  m14 := 0
  m21 := 0
  m22 := 1
  m23 := 0
  m24 := 0
  m31 := 0
  m32 := 0
  m33 := 2
  m34 := 1
  m41 := 0
  m42 := 0
  m43 := -1
  m44 := 0

/-- A uniform-scale-2 affine matrix: a World candidate. -/
def matWorldA : Mat4 where
  m11 := 2
  m12 := 0
  m13 := 0
  m14 := 0
  m21 := 0
  m22 := 2
  m23 := 0
  m24 := 0
  m31 := 0
  m32 := 0
  m33 := 2
  m34 := 0
  m41 := 0
  m42 := 0
  m43 := 0
  m44 := 1

/-- A uniform-scale-3 affine matrix: a second, different World candidate. -/
def matWorldB : Mat4 where
  m11 := 3
  m12 := 0
  m13 := 0
  m14 := 0
  m21 := 0
  m22 := 3
  m23 := 0
  m24 := 0
  m31 := 0
  m32 := 0
  m33 := 3
  m34 := 0
  m41 := 0
  m42 := 0
  m43 := 0
  m44 := 1

/-- Identity rotation with `_14 = 0.01` (right at the View tolerance): a
matrix that passes the strict View test. -/
def matViewEps : Mat4 where
  m11 := 1
  m12 := 0
  m13 := 0
  m14 := 0.01
  m21 := 0
  m22 := 1
  m23 := 0
  m24 := 0
  m31 := 0
  m32 := 0
  m33 := 1
  m34 := 0
  m41 := 0
  m42 := 0
  m43 := 0
  m44 := 1

/-- A projection-like matrix with a large `_41` translation term; its first
two 3x3 column norms are 1. -/
def matProjC9 : Mat4 where
  m11 := 1
  m12 := 0
  m13 := 0
  m14 := 0
  m21 := 0
  m22 := 1
  m23 := 0
  m24 := 0
  m31 := 0
  m32 := 0
  m33 := 2
  m34 := 1
  m41 := 1000
  m42 := 0
  m43 := -1
  m44 := 0

/-- Payload of an upload made of back-to-back copies of the identity matrix
(16 floats per matrix): a synthetic bone-palette of identity transforms. -/
def paletteUploadData : ℕ → ℝ := fun i =>
  if i % 16 = 0 ∨ i % 16 = 5 ∨ i % 16 = 10 ∨ i % 16 = 15 then 1 else 0


/-! ## Helper lemmas: evaluating the classifier on the concrete matrices -/

/-- Numeric engine: a sum of four zero-led products stays within the
determinant guard. -/
theorem abs_det_zero_le (a b c d : ℝ) : |(0:ℝ) * a + 0 * b + 0 * c + 0 * d| ≤ 1e-8 := by
  norm_num

/-- Numeric engine: the square root of a value equal to 1 is within 0.05 of 1. -/
theorem abs_sqrt_sub_one_le_005 (x : ℝ) (h : x = 1) : |Real.sqrt x - 1| ≤ 0.05 := by
  rw [h, Real.sqrt_one]
  norm_num

/-- Numeric engine: a zero value passes a 0.05 absolute bound. -/
theorem abs_le_005_of_eq_zero (x : ℝ) (h : x = 0) : |x| ≤ 0.05 := by
  rw [h, abs_zero]
  norm_num

/-- Numeric engine: a zero value passes a 0.02 absolute bound. -/
theorem abs_le_002_of_eq_zero (x : ℝ) (h : x = 0) : |x| ≤ 0.02 := by
  rw [h, abs_zero]
  norm_num

/-- Numeric engine: a zero value passes a 0.01 absolute bound. -/
theorem abs_le_001_of_eq_zero (x : ℝ) (h : x = 0) : |x| ≤ 0.01 := by
  rw [h, abs_zero]
  norm_num

/-- Numeric engine: a unit value is within 0.01 of 1. -/
theorem abs_sub_one_le_001_of_eq_one (x : ℝ) (h : x = 1) : |x - 1| ≤ 0.01 := by
  rw [h]
  norm_num

/-- Numeric engine: a unit value is within 0.1 of 1. -/
theorem abs_sub_one_le_01_of_eq_one (x : ℝ) (h : x = 1) : |x - 1| ≤ 0.1 := by
  rw [h]
  norm_num

/-- Numeric engine: square-root evaluation through a square decomposition. -/
theorem sqrt_eq_of_eq_sq (x r : ℝ) (h : x = r * r) (hr : 0 ≤ r) : Real.sqrt x = r := by
  rw [h, Real.sqrt_mul_self hr]

/-- Numeric engine: pi/2 exceeds 1.5 (from 3 < pi). -/
theorem pi_div_two_gt : (1.5:ℝ) < Real.pi / 2 :=
  lt_of_le_of_lt (by norm_num : (1.5:ℝ) ≤ 3 / 2)
    ((div_lt_div_iff_of_pos_right (by norm_num : (0:ℝ) < 2)).mpr Real.pi_gt_three)

/-- Numeric engine: pi/2 is below 1.575 (from pi < 3.15). -/
theorem pi_div_two_lt : Real.pi / 2 < 1.575 :=
  lt_of_lt_of_le ((div_lt_div_iff_of_pos_right (by norm_num : (0:ℝ) < 2)).mpr Real.pi_lt_d2)
    (by norm_num : (3.15:ℝ) / 2 ≤ 1.575)

/-- Numeric engine: pi/3 exceeds 1 (from 3 < pi). -/
theorem pi_div_three_gt : (1:ℝ) < Real.pi / 3 :=
  lt_of_le_of_lt (by norm_num : (1:ℝ) ≤ 3 / 3)
    ((div_lt_div_iff_of_pos_right (by norm_num : (0:ℝ) < 3)).mpr Real.pi_gt_three)

/-- Numeric engine: pi/3 is below 1.05 (from pi < 3.15). -/
theorem pi_div_three_lt : Real.pi / 3 < 1.05 :=
  lt_of_lt_of_le ((div_lt_div_iff_of_pos_right (by norm_num : (0:ℝ) < 3)).mpr Real.pi_lt_d2)
    (by norm_num : (3.15:ℝ) / 3 ≤ 1.05)

theorem sqrt_four_eq : Real.sqrt 4 = 2 := by
  rw [show (4 : ℝ) = 2 * 2 by norm_num, Real.sqrt_mul_self (by norm_num : (0:ℝ) ≤ 2)]

theorem sqrt_nine_eq : Real.sqrt 9 = 3 := by
  rw [show (9 : ℝ) = 3 * 3 by norm_num, Real.sqrt_mul_self (by norm_num : (0:ℝ) ≤ 3)]

theorem sqrt_121_eq : Real.sqrt 121 = 11 := by
  rw [show (121 : ℝ) = 11 * 11 by norm_num, Real.sqrt_mul_self (by norm_num : (0:ℝ) ≤ 11)]

/-- A matrix whose `_34` entry is 0 fails the strict projection shape test
(its perspective term is not near ±1). -/
theorem not_shapeOk_of_m34_zero (m : Mat4) (h : m.m34 = 0) : ¬ ProjectionShapeOk m := by
  intro hp
  obtain ⟨-, -, -, -, -, -, -, -, h9, -⟩ := hp
  simp only [h, abs_zero, zero_sub, abs_neg, abs_one] at h9
  norm_num at h9

/-- A matrix whose `_34` entry is 0 has no perspective component. -/
theorem not_persp_of_m34_zero (m : Mat4) (h : m.m34 = 0) : ¬ HasPerspectiveComponent m := by
  intro hp
  obtain ⟨h1, -⟩ := hp
  simp only [h, abs_zero] at h1
  norm_num at h1

/-- The FOV recovered from the canonical projection `matP1` is a right angle. -/
theorem recoveredFov_matP1 : recoveredFov matP1 = Real.pi / 2 := by
  show 2 * Real.arctan (1 / |(1:ℝ)|) = Real.pi / 2
  rw [abs_one, div_one, Real.arctan_one]
  ring

theorem shapeOk_matP1 : ProjectionShapeOk matP1 :=
  ⟨abs_le_002_of_eq_zero _ rfl, abs_le_002_of_eq_zero _ rfl,
   abs_le_002_of_eq_zero _ rfl, abs_le_002_of_eq_zero _ rfl,
   abs_le_002_of_eq_zero _ rfl, abs_le_002_of_eq_zero _ rfl,
   abs_le_002_of_eq_zero _ rfl, abs_le_002_of_eq_zero _ rfl,
   show abs (|(1:ℝ)| - 1) ≤ 0.05 by rw [abs_one]; norm_num,
   abs_le_005_of_eq_zero _ rfl,
   show (0.001:ℝ) ≤ |(1:ℝ)| by rw [abs_one]; norm_num,
   show (0.001:ℝ) ≤ |(1:ℝ)| by rw [abs_one]; norm_num,
   show (0.0001:ℝ) ≤ |(2:ℝ)| by rw [abs_of_pos (by norm_num : (0:ℝ) < 2)]; norm_num,
   show (0.0001:ℝ) ≤ |(-1:ℝ)| by rw [abs_neg, abs_one]; norm_num,
   by rw [recoveredFov_matP1]; exact le_trans (by norm_num) pi_div_two_gt.le,
   by rw [recoveredFov_matP1]; exact le_trans pi_div_two_lt.le (by norm_num)⟩

theorem viewStrict_identity : LooksLikeViewStrict identityMatrix :=
  ⟨abs_sqrt_sub_one_le_005 _ (show (1:ℝ) * 1 + 0 * 0 + 0 * 0 = 1 by norm_num),
   abs_sqrt_sub_one_le_005 _ (show (0:ℝ) * 0 + 1 * 1 + 0 * 0 = 1 by norm_num),
   abs_sqrt_sub_one_le_005 _ (show (0:ℝ) * 0 + 0 * 0 + 1 * 1 = 1 by norm_num),
   abs_le_005_of_eq_zero _ (show (1:ℝ) * 0 + 0 * 1 + 0 * 0 = 0 by norm_num),
   abs_le_005_of_eq_zero _ (show (1:ℝ) * 0 + 0 * 0 + 0 * 1 = 0 by norm_num),
   abs_le_005_of_eq_zero _ (show (0:ℝ) * 0 + 1 * 0 + 0 * 1 = 0 by norm_num),
   abs_le_001_of_eq_zero _ rfl, abs_le_001_of_eq_zero _ rfl, abs_le_001_of_eq_zero _ rfl,
   abs_sub_one_le_001_of_eq_one _ rfl,
   abs_sub_one_le_01_of_eq_one _
     (show (1:ℝ) * (1 * 1 - 0 * 0) - 0 * (0 * 1 - 0 * 0) + 0 * (0 * 0 - 1 * 0) = 1 by
       norm_num)⟩

theorem viewStrict_matR90 : LooksLikeViewStrict matR90 :=
  ⟨abs_sqrt_sub_one_le_005 _ (show (0:ℝ) * 0 + 1 * 1 + 0 * 0 = 1 by norm_num),
   abs_sqrt_sub_one_le_005 _ (show (-1:ℝ) * -1 + 0 * 0 + 0 * 0 = 1 by norm_num),
   abs_sqrt_sub_one_le_005 _ (show (0:ℝ) * 0 + 0 * 0 + 1 * 1 = 1 by norm_num),
   abs_le_005_of_eq_zero _ (show (0:ℝ) * -1 + 1 * 0 + 0 * 0 = 0 by norm_num),
   abs_le_005_of_eq_zero _ (show (0:ℝ) * 0 + 1 * 0 + 0 * 1 = 0 by norm_num),
   abs_le_005_of_eq_zero _ (show (-1:ℝ) * 0 + 0 * 0 + 0 * 1 = 0 by norm_num),
   abs_le_001_of_eq_zero _ rfl, abs_le_001_of_eq_zero _ rfl, abs_le_001_of_eq_zero _ rfl,
   abs_sub_one_le_001_of_eq_one _ rfl,
   abs_sub_one_le_01_of_eq_one _
     (show (0:ℝ) * (0 * 1 - 0 * 0) - 1 * (-1 * 1 - 0 * 0) + 0 * (-1 * 0 - 0 * 0) = 1 by
       norm_num)⟩

theorem viewStrict_matViewEps : LooksLikeViewStrict matViewEps :=
  ⟨abs_sqrt_sub_one_le_005 _ (show (1:ℝ) * 1 + 0 * 0 + 0 * 0 = 1 by norm_num),
   abs_sqrt_sub_one_le_005 _ (show (0:ℝ) * 0 + 1 * 1 + 0 * 0 = 1 by norm_num),
   abs_sqrt_sub_one_le_005 _ (show (0:ℝ) * 0 + 0 * 0 + 1 * 1 = 1 by norm_num),
   abs_le_005_of_eq_zero _ (show (1:ℝ) * 0 + 0 * 1 + 0 * 0 = 0 by norm_num),
   abs_le_005_of_eq_zero _ (show (1:ℝ) * 0 + 0 * 0 + 0 * 1 = 0 by norm_num),
   abs_le_005_of_eq_zero _ (show (0:ℝ) * 0 + 1 * 0 + 0 * 1 = 0 by norm_num),
   show |(0.01:ℝ)| ≤ 0.01 from le_of_eq (abs_of_pos (by norm_num : (0:ℝ) < 0.01)),
   abs_le_001_of_eq_zero _ rfl, abs_le_001_of_eq_zero _ rfl,
   abs_sub_one_le_001_of_eq_one _ rfl,
   abs_sub_one_le_01_of_eq_one _
     (show (1:ℝ) * (1 * 1 - 0 * 0) - 0 * (0 * 1 - 0 * 0) + 0 * (0 * 0 - 1 * 0) = 1 by
       norm_num)⟩

theorem not_viewStrict_matWorldA : ¬ LooksLikeViewStrict matWorldA := by
  intro hv
  obtain ⟨h1, -⟩ := hv
  simp only [matWorldA, Dot3] at h1
  rw [show (2:ℝ) * 2 + 0 * 0 + 0 * 0 = 4 by norm_num, sqrt_four_eq] at h1
  norm_num at h1

theorem not_viewStrict_matWorldB : ¬ LooksLikeViewStrict matWorldB := by
  intro hv
  obtain ⟨h1, -⟩ := hv
  simp only [matWorldB, Dot3] at h1
  rw [show (3:ℝ) * 3 + 0 * 0 + 0 * 0 = 9 by norm_num, sqrt_nine_eq] at h1
  norm_num at h1

theorem worldStrict_matWorldA (rows : ℤ) (cnt start base : ℕ) :
    LooksLikeWorldStrict matWorldA rows cnt start base := by
  refine ⟨⟨show |(0:ℝ)| < 0.02 by norm_num, show |(0:ℝ)| < 0.02 by norm_num,
    show |(0:ℝ)| < 0.02 by norm_num, show |(1:ℝ) - 1| < 0.02 by norm_num⟩,
    not_viewStrict_matWorldA, ?_, ?_⟩
  · rw [show Determinant3x3 matWorldA = 8 from by
      show (2:ℝ) * (2 * 2 - 0 * 0) - 0 * (0 * 2 - 0 * 0) + 0 * (0 * 0 - 2 * 0) = 8
      norm_num]
    norm_num
  · intro hb
    obtain ⟨-, ⟨hr, -⟩, -⟩ := hb
    rw [show Dot3 matWorldA.m11 matWorldA.m12 matWorldA.m13 matWorldA.m11 matWorldA.m12
        matWorldA.m13 = 4 from by
      show (2:ℝ) * 2 + 0 * 0 + 0 * 0 = 4
      norm_num, sqrt_four_eq] at hr
    norm_num at hr

theorem worldStrict_matWorldB (rows : ℤ) (cnt start base : ℕ) :
    LooksLikeWorldStrict matWorldB rows cnt start base := by
  refine ⟨⟨show |(0:ℝ)| < 0.02 by norm_num, show |(0:ℝ)| < 0.02 by norm_num,
    show |(0:ℝ)| < 0.02 by norm_num, show |(1:ℝ) - 1| < 0.02 by norm_num⟩,
    not_viewStrict_matWorldB, ?_, ?_⟩
  · rw [show Determinant3x3 matWorldB = 27 from by
      show (3:ℝ) * (3 * 3 - 0 * 0) - 0 * (0 * 3 - 0 * 0) + 0 * (0 * 0 - 3 * 0) = 27
      norm_num]
    norm_num
  · intro hb
    obtain ⟨-, ⟨hr, -⟩, -⟩ := hb
    rw [show Dot3 matWorldB.m11 matWorldB.m12 matWorldB.m13 matWorldB.m11 matWorldB.m12
        matWorldB.m13 = 9 from by
      show (3:ℝ) * 3 + 0 * 0 + 0 * 0 = 9
      norm_num, sqrt_nine_eq] at hr
    norm_num at hr

theorem classify_identity (rows : ℤ) (cnt start base : ℕ) :
    ClassifyMatrixDeterministic identityMatrix rows cnt start base =
      MatrixClassification.view := by
  unfold ClassifyMatrixDeterministic LooksLikeProjectionStrict
  rw [if_neg (not_shapeOk_of_m34_zero identityMatrix rfl),
    if_neg (not_persp_of_m34_zero identityMatrix rfl), if_pos viewStrict_identity]

theorem classify_matR90 (rows : ℤ) (cnt start base : ℕ) :
    ClassifyMatrixDeterministic matR90 rows cnt start base = MatrixClassification.view := by
  unfold ClassifyMatrixDeterministic LooksLikeProjectionStrict
  rw [if_neg (not_shapeOk_of_m34_zero matR90 rfl),
    if_neg (not_persp_of_m34_zero matR90 rfl), if_pos viewStrict_matR90]

theorem classify_matViewEps (rows : ℤ) (cnt start base : ℕ) :
    ClassifyMatrixDeterministic matViewEps rows cnt start base =
      MatrixClassification.view := by
  unfold ClassifyMatrixDeterministic LooksLikeProjectionStrict
  rw [if_neg (not_shapeOk_of_m34_zero matViewEps rfl),
    if_neg (not_persp_of_m34_zero matViewEps rfl), if_pos viewStrict_matViewEps]

theorem classify_matP1 (rows : ℤ) (cnt start base : ℕ) :
    ClassifyMatrixDeterministic matP1 rows cnt start base =
      MatrixClassification.projection := by
  unfold ClassifyMatrixDeterministic LooksLikeProjectionStrict
  rw [if_pos shapeOk_matP1]

theorem classify_matWorldA (rows : ℤ) (cnt start base : ℕ) :
    ClassifyMatrixDeterministic matWorldA rows cnt start base =
      MatrixClassification.world := by
  unfold ClassifyMatrixDeterministic LooksLikeProjectionStrict
  rw [if_neg (not_shapeOk_of_m34_zero matWorldA rfl),
    if_neg (not_persp_of_m34_zero matWorldA rfl), if_neg not_viewStrict_matWorldA,
    if_pos (worldStrict_matWorldA rows cnt start base)]

theorem classify_matWorldB (rows : ℤ) (cnt start base : ℕ) :
    ClassifyMatrixDeterministic matWorldB rows cnt start base =
      MatrixClassification.world := by
  unfold ClassifyMatrixDeterministic LooksLikeProjectionStrict
  rw [if_neg (not_shapeOk_of_m34_zero matWorldB rfl),
    if_neg (not_persp_of_m34_zero matWorldB rfl), if_neg not_viewStrict_matWorldB,
    if_pos (worldStrict_matWorldB rows cnt start base)]


/-! ## Further helper lemmas -/

/-- A matrix whose `_11` magnitude is below the 0.001 scale threshold fails
the strict projection shape test. -/
theorem not_shapeOk_of_m11_small (m : Mat4) (h : |m.m11| < 0.001) :
    ¬ ProjectionShapeOk m := by
  intro hp
  obtain ⟨-, -, -, -, -, -, -, -, -, -, h11, -⟩ := hp
  linarith

/-- A matrix whose `_12` magnitude exceeds the 0.02 off-diagonal tolerance
fails the strict projection shape test. -/
theorem not_shapeOk_of_m12_large (m : Mat4) (h : 0.02 < |m.m12|) :
    ¬ ProjectionShapeOk m := by
  intro hp
  obtain ⟨h1, -⟩ := hp
  linarith

/-- A matrix that fails the strict shape test is not a typical projection
matrix for any configuration. -/
theorem not_typical_of_not_shapeOk (cfg : ProxyConfig) (m : Mat4)
    (h : ¬ ProjectionShapeOk m) : ¬ IsTypicalProjectionMatrix cfg m := by
  unfold IsTypicalProjectionMatrix AnalyzeProjectionMatrixNumeric
  rw [if_neg h]
  exact fun hf => hf

/-- The deterministic 4x4 inverse fails whenever the expanded cofactor
determinant is within the 1e-8 guard (the cofactor expansion below is the
zeta-expansion of `det = m[0]*inv[0] + m[1]*inv[4] + m[2]*inv[8] + m[3]*inv[12]`
from the source). -/
theorem invert_none_of_small_det (m : Mat4)
    (h : |m.m11 * (m.m22 * m.m33 * m.m44 - m.m22 * m.m34 * m.m43 - m.m32 * m.m23 * m.m44 +
            m.m32 * m.m24 * m.m43 + m.m42 * m.m23 * m.m34 - m.m42 * m.m24 * m.m33) +
          m.m12 * (-(m.m21 * m.m33 * m.m44) + m.m21 * m.m34 * m.m43 + m.m31 * m.m23 * m.m44 -
            m.m31 * m.m24 * m.m43 - m.m41 * m.m23 * m.m34 + m.m41 * m.m24 * m.m33) +
          m.m13 * (m.m21 * m.m32 * m.m44 - m.m21 * m.m34 * m.m42 - m.m31 * m.m22 * m.m44 +
            m.m31 * m.m24 * m.m42 + m.m41 * m.m22 * m.m34 - m.m41 * m.m24 * m.m32) +
          m.m14 * (-(m.m21 * m.m32 * m.m43) + m.m21 * m.m33 * m.m42 + m.m31 * m.m22 * m.m43 -
            m.m31 * m.m23 * m.m42 - m.m41 * m.m22 * m.m33 + m.m41 * m.m23 * m.m32)| ≤ 1e-8) :
    InvertMatrix4x4Deterministic m = Option.none :=
  if_pos h

/-- The all-zero matrix cannot be inverted: its determinant is 0. -/
theorem invert_zeroMat4 : InvertMatrix4x4Deterministic zeroMat4 = Option.none :=
  invert_none_of_small_det zeroMat4 (abs_det_zero_le _ _ _ _)

/-- Decomposition of a combined matrix with no world available fails whenever
the combined matrix is not a typical projection matrix (shared engine of the
C1 analysis). -/
theorem decompose_noWorld_none_of_not_typical (cfg : ProxyConfig) (mvp : Mat4)
    (h : ¬ IsTypicalProjectionMatrix cfg mvp) :
    TryDecomposeCombinedMVP cfg mvp Option.none = Option.none := by
  have hext : TryExtractProjectionFromCombined cfg mvp Option.none
      cfg.combinedMVPForceDecomposition = Option.none := by
    unfold TryExtractProjectionFromCombined
    rw [if_neg h]
  simp only [TryDecomposeCombinedMVP, hext]

/-! ## C10 -/

/-- C10: the view/projection cross-validator is total and guarded — whenever
either of the known projection's first two column norms is below 1e-6 the
validator accepts without computing a relative difference, so a degenerate
projection never causes a View candidate rejection. -/
theorem C10_cross_validator_degenerate_guard (candidateView knownProjection : Mat4)
    (h : p_c0 knownProjection < 1e-6 ∨ p_c1 knownProjection < 1e-6) :
    CrossValidateViewAgainstProjection candidateView knownProjection := by
  rcases h with h | h
  · exact Or.inl h
  · exact Or.inr (Or.inl h)

/-- Witness for C10: the all-zero projection has zero column norms, and the
validator accepts any candidate against it. -/
theorem C10_witness :
    (p_c0 zeroMat4 < 1e-6 ∨ p_c1 zeroMat4 < 1e-6) ∧
    CrossValidateViewAgainstProjection identityMatrix zeroMat4 := by
  have h : p_c0 zeroMat4 < 1e-6 := by
    show Real.sqrt ((0:ℝ) * 0 + 0 * 0 + 0 * 0) < 1e-6
    rw [show (0:ℝ) * 0 + 0 * 0 + 0 * 0 = 0 by norm_num, Real.sqrt_zero]
    norm_num
  exact ⟨Or.inl h, C10_cross_validator_degenerate_guard identityMatrix zeroMat4 (Or.inl h)⟩

/-! ## C8 -/

/-- C8 counterexample: the upload-based matrix builder does not check the
0..255 register address space.  Reading 4 rows at base register 253 touches
register 256 (outside the address space), yet the build succeeds. -/
theorem C8_counterexample :
    TryBuildMatrixFromConstantUpdate paletteUploadData 253 4 253 4 false =
      some identityMatrix ∧
    ¬ (253 + 4 - 1 < kMaxConstantRegisters) := by
  constructor
  · rfl
  · norm_num [kMaxConstantRegisters]

/-- C8 as amended: the upload-based builder fails exactly on a bad row count,
a negative base register, or a range not contained in the upload (the address
space is not checked there); a successful 3-row build synthesizes the last
row (direct) or last column (transposed) as (0,0,0,1); the snapshot-based
builder additionally fails whenever the requested range leaves the 0..255
register address space. -/
theorem C8_matrix_builder (data : ℕ → ℝ) (start cnt : ℕ) (base rows : ℤ)
    (transposed : Bool) (state : ShaderConstantState)
    (hb : ¬ base < 0)
    (hr : ¬ ((start : ℤ) > base ∨ (start : ℤ) + (cnt : ℤ) < base + 3))
    (hsnap : kMaxConstantRegisters ≤ base + rows - 1) :
    (TryBuildMatrixFromConstantUpdate data start cnt base rows transposed = Option.none ↔
      (rows < 3 ∨ 4 < rows ∨ base < 0 ∨ (start : ℤ) > base ∨
        (start : ℤ) + (cnt : ℤ) < base + rows)) ∧
    (∃ m, TryBuildMatrixFromConstantUpdate data start cnt base 3 false = some m ∧
      m.m41 = 0 ∧ m.m42 = 0 ∧ m.m43 = 0 ∧ m.m44 = 1) ∧
    (∃ m', TryBuildMatrixFromConstantUpdate data start cnt base 3 true = some m' ∧
      m'.m14 = 0 ∧ m'.m24 = 0 ∧ m'.m34 = 0 ∧ m'.m44 = 1) ∧
    TryBuildMatrixSnapshot state base rows transposed = Option.none := by
  refine ⟨?_, ?_, ?_, ?_⟩
  · by_cases h1 : rows < 3 ∨ 4 < rows
    · exact iff_of_true (if_pos h1) (h1.imp id fun h => Or.inl h)
    · by_cases h3' : (start : ℤ) > base ∨ (start : ℤ) + (cnt : ℤ) < base + rows
      · exact iff_of_true ((if_neg h1).trans ((if_neg hb).trans (if_pos h3')))
          (Or.inr (Or.inr (Or.inr h3')))
      · refine iff_of_false (fun h => ?_) fun hc => ?_
        · have h' := ((if_neg h1).trans ((if_neg hb).trans (if_neg h3'))).symm.trans h
          cases transposed <;> exact Option.noConfusion h'
        · exact hc.elim (fun h => h1 (Or.inl h)) fun hc =>
            hc.elim (fun h => h1 (Or.inr h)) fun hc => hc.elim hb h3'
  · exact ⟨_, (if_neg (by norm_num)).trans ((if_neg hb).trans (if_neg hr)),
      rfl, rfl, rfl, rfl⟩
  · exact ⟨_, (if_neg (by norm_num)).trans ((if_neg hb).trans (if_neg hr)),
      rfl, rfl, rfl, rfl⟩
  · exact if_pos (Or.inr (Or.inr (Or.inr (Or.inr hsnap))))

/-- Witness for C8: at base register 254 with 3 rows inside an upload
covering registers 0..299, the upload-based builds succeed (with the
synthesized homogeneous row/column), while the snapshot-based build fails
because register 256 is outside the address space. -/
theorem C8_witness :
    (TryBuildMatrixFromConstantUpdate paletteUploadData 0 300 254 3 false = Option.none ↔
      ((3:ℤ) < 3 ∨ (4:ℤ) < 3 ∨ (254:ℤ) < 0 ∨ (0:ℤ) > 254 ∨ (0:ℤ) + 300 < 254 + 3)) ∧
    (∃ m, TryBuildMatrixFromConstantUpdate paletteUploadData 0 300 254 3 false = some m ∧
      m.m41 = 0 ∧ m.m42 = 0 ∧ m.m43 = 0 ∧ m.m44 = 1) ∧
    (∃ m', TryBuildMatrixFromConstantUpdate paletteUploadData 0 300 254 3 true = some m' ∧
      m'.m14 = 0 ∧ m'.m24 = 0 ∧ m'.m34 = 0 ∧ m'.m44 = 1) ∧
    TryBuildMatrixSnapshot
      { constants := fun _ => 0, valid := fun _ => true, snapshotReady := true }
      254 3 false = Option.none :=
  C8_matrix_builder paletteUploadData 0 300 254 3 false
    { constants := fun _ => 0, valid := fun _ => true, snapshotReady := true }
    (by norm_num) (by norm_num) (by norm_num [kMaxConstantRegisters])

/-! ## C7 -/

/-- C7: a failed combined-MVP decomposition publishes nothing — whenever
`TryDecomposeCombinedMVP` returns no result, `tryHandleCombinedMVP` leaves
the World/View/Projection bindings, their validity flags, their refresh
frames, the source locks (the whole device state) and the per-upload flags
unchanged; moreover a non-invertible world matrix and a failed projection
extraction each make the decomposition return no result. -/
theorem C7_failed_decomposition_publishes_nothing :
    (∀ (cfg : ProxyConfig) (frame : ℤ) (st : DeviceState) (fl : UploadFlags) (mvp : Mat4),
      TryDecomposeCombinedMVP cfg mvp
          (if st.hasWorld = true then some st.currentWorld else Option.none) =
        Option.none →
      tryHandleCombinedMVP cfg frame st fl mvp = (st, fl)) ∧
    (∀ (cfg : ProxyConfig) (mvp w : Mat4),
      InvertMatrix4x4Deterministic w = Option.none →
      TryDecomposeCombinedMVP cfg mvp (some w) = Option.none) ∧
    (∀ (cfg : ProxyConfig) (mvp : Mat4),
      TryExtractProjectionFromCombined cfg mvp Option.none
          cfg.combinedMVPForceDecomposition = Option.none →
      TryDecomposeCombinedMVP cfg mvp Option.none = Option.none) := by
  refine ⟨?_, ?_, ?_⟩
  · intro cfg frame st fl mvp h
    unfold tryHandleCombinedMVP
    split_ifs with he hf hg hw
    · rfl
    · rfl
    · rfl
    · rw [if_pos hw] at h
      rw [h]
    · rw [if_neg hw] at h
      rw [h]
  · intro cfg mvp w h
    simp only [TryDecomposeCombinedMVP, h, Option.map_none']
  · intro cfg mvp h
    simp only [TryDecomposeCombinedMVP, h]

/-- Witness for C7: the all-zero combined matrix makes every decomposition
step fail (it is not a typical projection, and as a world matrix it is
singular), and the handler leaves the initial state untouched. -/
theorem C7_witness :
    TryDecomposeCombinedMVP defaultConfig zeroMat4 (some zeroMat4) = Option.none ∧
    TryDecomposeCombinedMVP defaultConfig zeroMat4 Option.none = Option.none ∧
    tryHandleCombinedMVP defaultConfig 3 initialDeviceState freshUploadFlags zeroMat4 =
      (initialDeviceState, freshUploadFlags) := by
  have hnt : ¬ IsTypicalProjectionMatrix defaultConfig zeroMat4 :=
    not_typical_of_not_shapeOk defaultConfig zeroMat4 (not_shapeOk_of_m34_zero zeroMat4 rfl)
  have hext : TryExtractProjectionFromCombined defaultConfig zeroMat4 Option.none
      defaultConfig.combinedMVPForceDecomposition = Option.none := by
    unfold TryExtractProjectionFromCombined
    rw [if_neg hnt]
  have hdec : TryDecomposeCombinedMVP defaultConfig zeroMat4 Option.none = Option.none :=
    (C7_failed_decomposition_publishes_nothing.2.2) defaultConfig zeroMat4 hext
  refine ⟨(C7_failed_decomposition_publishes_nothing.2.1) defaultConfig zeroMat4 zeroMat4
    invert_zeroMat4, hdec, ?_⟩
  exact (C7_failed_decomposition_publishes_nothing.1) defaultConfig 3 initialDeviceState
    freshUploadFlags zeroMat4 (by simpa [initialDeviceState] using hdec)

/-! ## C1 -/

/-- C1 counterexample: R is a proper orthonormal rotation (90 degrees about
z, zero translation) accepted by the strict View test, P is a valid canonical
projection whose FOV (pi/2) lies inside the configured [0.1, 2.5] bounds, yet
the combined-MVP decomposer invoked on R x P with no World available returns
no result instead of recovering View and Projection: the rotated product
fails the typical-projection gate of the extraction step. -/
theorem C1_counterexample :
    LooksLikeViewStrict matR90 ∧
    ProjectionShapeOk matP1 ∧
    defaultConfig.minFOV ≤ recoveredFov matP1 ∧
    recoveredFov matP1 ≤ defaultConfig.maxFOV ∧
    TryDecomposeCombinedMVP defaultConfig (MultiplyMatrix matR90 matP1) Option.none =
      Option.none := by
  have h12 : (MultiplyMatrix matR90 matP1).m12 = 1 := by
    show (0:ℝ) * 0 + 1 * 1 + 0 * 0 + 0 * 0 = 1
    norm_num
  refine ⟨viewStrict_matR90, shapeOk_matP1, ?_, ?_, ?_⟩
  · rw [recoveredFov_matP1]
    show (0.1:ℝ) ≤ Real.pi / 2
    exact le_trans (by norm_num) pi_div_two_gt.le
  · rw [recoveredFov_matP1]
    show Real.pi / 2 ≤ (2.5:ℝ)
    exact le_trans pi_div_two_lt.le (by norm_num)
  · refine decompose_noWorld_none_of_not_typical defaultConfig _
      (not_typical_of_not_shapeOk defaultConfig _ (not_shapeOk_of_m12_large _ ?_))
    rw [h12]
    norm_num

/-- C1 as amended: with no World matrix available, the combined-MVP
decomposer succeeds only when the combined input itself already passes the
strict typical-projection test; whenever the combined matrix fails that gate
(as R x P does for any rotation R that moves an off-diagonal entry beyond the
0.02 tolerance), the decomposer returns no result and recovers nothing. -/
theorem C1_decomposer_requires_typical_shape (cfg : ProxyConfig) (mvp : Mat4)
    (h : ¬ IsTypicalProjectionMatrix cfg mvp) :
    TryDecomposeCombinedMVP cfg mvp Option.none = Option.none :=
  decompose_noWorld_none_of_not_typical cfg mvp h

/-- Witness for C1: the rotated combined matrix of the counterexample fails
the typical-projection gate, and the amended theorem applies to it. -/
theorem C1_witness :
    ¬ IsTypicalProjectionMatrix defaultConfig (MultiplyMatrix matR90 matP1) ∧
    TryDecomposeCombinedMVP defaultConfig (MultiplyMatrix matR90 matP1) Option.none =
      Option.none := by
  have h12 : (MultiplyMatrix matR90 matP1).m12 = 1 := by
    show (0:ℝ) * 0 + 1 * 1 + 0 * 0 + 0 * 0 = 1
    norm_num
  have hnt : ¬ IsTypicalProjectionMatrix defaultConfig (MultiplyMatrix matR90 matP1) := by
    refine not_typical_of_not_shapeOk defaultConfig _ (not_shapeOk_of_m12_large _ ?_)
    rw [h12]
    norm_num
  exact ⟨hnt, C1_decomposer_requires_typical_shape defaultConfig _ hnt⟩


/-- Shared: a View-classified candidate from a pair other than the view
lock's leaves `updateFromClassification` without effect. -/
theorem update_view_locked_skip (cfg : ProxyConfig) (frame : ℤ) (sk : ℕ)
    (uploadStart cnt : ℕ) (st : DeviceState) (fl : UploadFlags) (mat : Mat4)
    (baseReg : ℕ) (rows : ℤ)
    (hcls : ClassifyMatrixDeterministic mat rows cnt uploadStart baseReg =
      MatrixClassification.view)
    (hlock : st.viewLockedShader ≠ 0)
    (hdiff : ¬ (sk = st.viewLockedShader ∧ (baseReg : ℤ) = st.viewLockedRegister)) :
    updateFromClassification cfg frame sk uploadStart cnt st fl mat baseReg rows =
      (st, fl) := by
  by_cases hg : fl.suppressViewFromUpload = false ∧ cfg.viewMatrixRegister < 0 ∧
      fl.overrideView = false ∧ fl.structView = false
  · exact (if_neg fun hc => MatrixClassification.noConfusion (hcls ▸ hc.1)).trans
      ((if_pos ⟨hcls, hg.1, hg.2.1, hg.2.2.1, hg.2.2.2⟩).trans
        (if_neg fun h => h.elim hlock hdiff))
  · exact (if_neg fun hc => MatrixClassification.noConfusion (hcls ▸ hc.1)).trans
      ((if_neg fun hc => hg ⟨hc.2.1, hc.2.2.1, hc.2.2.2.1, hc.2.2.2.2⟩).trans
        ((if_neg fun hc => MatrixClassification.noConfusion (hcls ▸ hc.1)).trans
          (if_neg fun hc => MatrixClassification.noConfusion (hcls ▸ hc.1))))

/-- Shared: a Projection-classified candidate from a pair other than the
projection lock's leaves `updateFromClassification` without effect. -/
theorem update_proj_locked_skip (cfg : ProxyConfig) (frame : ℤ) (sk : ℕ)
    (uploadStart cnt : ℕ) (st : DeviceState) (fl : UploadFlags) (mat : Mat4)
    (baseReg : ℕ) (rows : ℤ)
    (hcls : ClassifyMatrixDeterministic mat rows cnt uploadStart baseReg =
      MatrixClassification.projection)
    (hlock : st.projLockedShader ≠ 0)
    (hdiff : ¬ (sk = st.projLockedShader ∧ (baseReg : ℤ) = st.projLockedRegister)) :
    updateFromClassification cfg frame sk uploadStart cnt st fl mat baseReg rows =
      (st, fl) := by
  unfold updateFromClassification
  simp only [hcls, reduceCtorEq, false_and, if_false]
  by_cases hg : cfg.projMatrixRegister < 0 ∧ fl.overrideProj = false ∧
      fl.structProj = false
  · rw [if_pos ⟨trivial, hg.1, hg.2.1, hg.2.2⟩]
    split
    · rfl
    · split_ifs with hfov hsrc
      · rfl
      · rcases hsrc with h0 | hpair
        · exact absurd h0 hlock
        · exact absurd hpair hdiff
      · rfl
  · rw [if_neg]
    intro hc
    exact hg ⟨hc.2.1, hc.2.2.1, hc.2.2.2⟩

/-- Shared: normal form of `updateFromClassification` on a View-classified
candidate whose source lock admits the upload — the result is decided by the
cross-validation test against a freshly detected projection. -/
theorem update_view_unlocked (cfg : ProxyConfig) (frame : ℤ) (sk : ℕ)
    (uploadStart cnt : ℕ) (st : DeviceState) (fl : UploadFlags) (mat : Mat4)
    (baseReg : ℕ) (rows : ℤ)
    (hcls : ClassifyMatrixDeterministic mat rows cnt uploadStart baseReg =
      MatrixClassification.view)
    (hsup : fl.suppressViewFromUpload = false)
    (hreg : cfg.viewMatrixRegister < 0)
    (hov : fl.overrideView = false)
    (hstr : fl.structView = false)
    (hsrc : st.viewLockedShader = 0 ∨
      (sk = st.viewLockedShader ∧ (baseReg : ℤ) = st.viewLockedRegister)) :
    updateFromClassification cfg frame sk uploadStart cnt st fl mat baseReg rows =
      if st.hasProj = true ∧ st.projDetectedFrame = frame ∧
          ¬ CrossValidateViewAgainstProjection mat st.currentProj then (st, fl)
      else
        ({ st with viewLockedShader := sk
                   viewLockedRegister := (baseReg : ℤ)
                   currentView := mat
                   hasView := true
                   viewLastFrame := frame },
         { fl with structView := true }) :=
  (if_neg fun hc => MatrixClassification.noConfusion (hcls ▸ hc.1)).trans
    ((if_pos ⟨hcls, hsup, hreg, hov, hstr⟩).trans (if_pos hsrc))

/-- Shared: normal form of `updateFromClassification` on a World-classified
candidate with all World gates open — there is no lock to check and the slot
is overwritten unconditionally. -/
theorem update_world_accept (cfg : ProxyConfig) (frame : ℤ) (sk : ℕ)
    (uploadStart cnt : ℕ) (st : DeviceState) (fl : UploadFlags) (mat : Mat4)
    (baseReg : ℕ) (rows : ℤ)
    (hcls : ClassifyMatrixDeterministic mat rows cnt uploadStart baseReg =
      MatrixClassification.world)
    (hsup : fl.suppressWorldFromUpload = false)
    (hreg : cfg.worldMatrixRegister < 0)
    (hov : fl.overrideWorld = false)
    (hstr : fl.structWorld = false) :
    updateFromClassification cfg frame sk uploadStart cnt st fl mat baseReg rows =
      ({ st with currentWorld := mat
                 hasWorld := true
                 worldLastFrame := frame },
       { fl with structWorld := true }) :=
  (if_neg fun hc => MatrixClassification.noConfusion (hcls ▸ hc.1)).trans
    ((if_neg fun hc => MatrixClassification.noConfusion (hcls ▸ hc.1)).trans
      (if_pos ⟨hcls, hsup, hreg, hov, hstr⟩))

/-! ## C3 -/

/-- C3 counterexample: the World slot has no source lock.  Within one frame
(frame 7), an upload from shader 1 binds the World slot from register 5; a
later upload event in the same frame from shader 2, register 9 (a different
(shader, register) pair, with the per-upload flags freshly reset as the
source does at each upload) replaces the binding, although it was never
unset. -/
theorem C3_counterexample :
    (updateFromClassification defaultConfig 7 1 5 4 initialDeviceState freshUploadFlags
        matWorldA 5 4).1.currentWorld = matWorldA ∧
    (updateFromClassification defaultConfig 7 1 5 4 initialDeviceState freshUploadFlags
        matWorldA 5 4).1.hasWorld = true ∧
    (updateFromClassification defaultConfig 7 1 5 4 initialDeviceState freshUploadFlags
        matWorldA 5 4).1.worldLastFrame = 7 ∧
    (updateFromClassification defaultConfig 7 2 9 4
        (updateFromClassification defaultConfig 7 1 5 4 initialDeviceState freshUploadFlags
          matWorldA 5 4).1
        freshUploadFlags matWorldB 9 4).1.currentWorld = matWorldB ∧
    matWorldB ≠ matWorldA := by
  have h1 : updateFromClassification defaultConfig 7 1 5 4 initialDeviceState
      freshUploadFlags matWorldA 5 4 =
      ({ initialDeviceState with
          currentWorld := matWorldA
          hasWorld := true
          worldLastFrame := 7 },
       { freshUploadFlags with structWorld := true }) :=
    update_world_accept defaultConfig 7 1 5 4 initialDeviceState freshUploadFlags
      matWorldA 5 4 (classify_matWorldA 4 4 5 5) rfl
      (show (-1:ℤ) < 0 by norm_num) rfl rfl
  have h2 : updateFromClassification defaultConfig 7 2 9 4
      ({ initialDeviceState with
          currentWorld := matWorldA
          hasWorld := true
          worldLastFrame := 7 } : DeviceState)
      freshUploadFlags matWorldB 9 4 =
      ({ initialDeviceState with
          currentWorld := matWorldB
          hasWorld := true
          worldLastFrame := 7 },
       { freshUploadFlags with structWorld := true }) :=
    update_world_accept defaultConfig 7 2 9 4
      { initialDeviceState with
          currentWorld := matWorldA
          hasWorld := true
          worldLastFrame := 7 }
      freshUploadFlags matWorldB 9 4 (classify_matWorldB 4 4 9 9) rfl
      (show (-1:ℤ) < 0 by norm_num) rfl rfl
  rw [h1]
  refine ⟨rfl, rfl, rfl, ?_, ?_⟩
  · rw [h2]
  · intro h
    have := congrArg Mat4.m11 h
    simp only [matWorldA, matWorldB] at this
    norm_num at this

/-- C3 as amended: the no-hijack invariant holds for the View and Projection
slots on the structural-classification path — a View (resp. Projection)
binding locked to a (shader, register) pair this frame is never replaced by
a structural candidate classifying as View (resp. Projection) that comes
from a different pair; the World slot (which has no lock) and the atomic
combined-MVP decomposition path are exempt. -/
theorem C3_view_proj_bindings_locked_to_source :
    (∀ (cfg : ProxyConfig) (frame : ℤ) (sk : ℕ) (uploadStart cnt : ℕ) (st : DeviceState)
        (fl : UploadFlags) (mat : Mat4) (baseReg : ℕ) (rows : ℤ),
      ClassifyMatrixDeterministic mat rows cnt uploadStart baseReg =
        MatrixClassification.view →
      st.viewLockedShader ≠ 0 →
      ¬ (sk = st.viewLockedShader ∧ (baseReg : ℤ) = st.viewLockedRegister) →
      updateFromClassification cfg frame sk uploadStart cnt st fl mat baseReg rows =
        (st, fl)) ∧
    (∀ (cfg : ProxyConfig) (frame : ℤ) (sk : ℕ) (uploadStart cnt : ℕ) (st : DeviceState)
        (fl : UploadFlags) (mat : Mat4) (baseReg : ℕ) (rows : ℤ),
      ClassifyMatrixDeterministic mat rows cnt uploadStart baseReg =
        MatrixClassification.projection →
      st.projLockedShader ≠ 0 →
      ¬ (sk = st.projLockedShader ∧ (baseReg : ℤ) = st.projLockedRegister) →
      updateFromClassification cfg frame sk uploadStart cnt st fl mat baseReg rows =
        (st, fl)) := by
  exact ⟨update_view_locked_skip, update_proj_locked_skip⟩

/-- Witness for C3's amended invariant: with the View slot locked to
(shader 1, register 10) and the Projection slot locked to (shader 1,
register 20), candidates from (shader 2, register 30) classifying as View
and as Projection leave the state untouched. -/
theorem C3_witness :
    updateFromClassification defaultConfig 7 2 30 4
        { initialDeviceState with
            viewLockedShader := 1
            viewLockedRegister := 10
            projLockedShader := 1
            projLockedRegister := 20 }
        freshUploadFlags identityMatrix 30 4 =
      ({ initialDeviceState with
          viewLockedShader := 1
          viewLockedRegister := 10
          projLockedShader := 1
          projLockedRegister := 20 }, freshUploadFlags) ∧
    updateFromClassification defaultConfig 7 2 30 4
        { initialDeviceState with
            viewLockedShader := 1
            viewLockedRegister := 10
            projLockedShader := 1
            projLockedRegister := 20 }
        freshUploadFlags matP1 30 4 =
      ({ initialDeviceState with
          viewLockedShader := 1
          viewLockedRegister := 10
          projLockedShader := 1
          projLockedRegister := 20 }, freshUploadFlags) := by
  constructor
  · exact C3_view_proj_bindings_locked_to_source.1 defaultConfig 7 2 30 4 _
      freshUploadFlags identityMatrix 30 4 (classify_identity 4 4 30 30)
      (by norm_num) (by rintro ⟨h, -⟩; norm_num at h)
  · exact C3_view_proj_bindings_locked_to_source.2 defaultConfig 7 2 30 4 _
      freshUploadFlags matP1 30 4 (classify_matP1 4 4 30 30)
      (by norm_num) (by rintro ⟨h, -⟩; norm_num at h)


/-! ## C4 -/

/-- C9: View-vs-Projection cross-validation.  (1) With non-degenerate
projection column norms, the validator accepts exactly when both relative
column-norm differences of `candidateView * knownProjection` against
`knownProjection` stay below 15%.  (2) At the call site, a locked-source View
candidate that fails cross-validation against a Projection accepted this
frame leaves the slot, lock, refresh frame and resolution flags unchanged.
(3) A candidate that passes is accepted.  (4) Any matrix passing the strict
projection shape test (hence any structurally accepted Projection) has both
column norms above the 1e-6 guard, so the comparison is really performed. -/
theorem C9_cross_validation_gate :
    (∀ (v p : Mat4), 1e-6 ≤ p_c0 p → 1e-6 ≤ p_c1 p →
      (CrossValidateViewAgainstProjection v p ↔
        (|vp_c0 v p - p_c0 p| / p_c0 p < 0.15 ∧ |vp_c1 v p - p_c1 p| / p_c1 p < 0.15))) ∧
    (∀ (cfg : ProxyConfig) (frame : ℤ) (sk : ℕ) (uploadStart cnt : ℕ) (st : DeviceState)
        (fl : UploadFlags) (mat : Mat4) (baseReg : ℕ) (rows : ℤ),
      ClassifyMatrixDeterministic mat rows cnt uploadStart baseReg =
        MatrixClassification.view →
      fl.suppressViewFromUpload = false →
      cfg.viewMatrixRegister < 0 →
      fl.overrideView = false →
      fl.structView = false →
      (st.viewLockedShader = 0 ∨
        (sk = st.viewLockedShader ∧ (baseReg : ℤ) = st.viewLockedRegister)) →
      st.hasProj = true →
      st.projDetectedFrame = frame →
      ¬ CrossValidateViewAgainstProjection mat st.currentProj →
      updateFromClassification cfg frame sk uploadStart cnt st fl mat baseReg rows =
        (st, fl)) ∧
    (∀ (cfg : ProxyConfig) (frame : ℤ) (sk : ℕ) (uploadStart cnt : ℕ) (st : DeviceState)
        (fl : UploadFlags) (mat : Mat4) (baseReg : ℕ) (rows : ℤ),
      ClassifyMatrixDeterministic mat rows cnt uploadStart baseReg =
        MatrixClassification.view →
      fl.suppressViewFromUpload = false →
      cfg.viewMatrixRegister < 0 →
      fl.overrideView = false →
      fl.structView = false →
      (st.viewLockedShader = 0 ∨
        (sk = st.viewLockedShader ∧ (baseReg : ℤ) = st.viewLockedRegister)) →
      CrossValidateViewAgainstProjection mat st.currentProj →
      updateFromClassification cfg frame sk uploadStart cnt st fl mat baseReg rows =
        ({ st with
            viewLockedShader := sk
            viewLockedRegister := (baseReg : ℤ)
            currentView := mat
            hasView := true
            viewLastFrame := frame },
         { fl with structView := true })) ∧
    (∀ p : Mat4, ProjectionShapeOk p → 1e-6 ≤ p_c0 p ∧ 1e-6 ≤ p_c1 p) := by
  refine ⟨?_, ?_, ?_, ?_⟩
  · intro v p h0 h1
    unfold CrossValidateViewAgainstProjection
    constructor
    · rintro (h | h | h)
      · exact absurd h (not_lt.mpr h0)
      · exact absurd h (not_lt.mpr h1)
      · exact h
    · exact fun h => Or.inr (Or.inr h)
  · intro cfg frame sk uploadStart cnt st fl mat baseReg rows hcls hsup hreg hov hstr
      hsrc hproj hdet hcv
    rw [update_view_unlocked cfg frame sk uploadStart cnt st fl mat baseReg rows hcls
      hsup hreg hov hstr hsrc, if_pos ⟨hproj, hdet, hcv⟩]
  · intro cfg frame sk uploadStart cnt st fl mat baseReg rows hcls hsup hreg hov hstr
      hsrc hcv
    rw [update_view_unlocked cfg frame sk uploadStart cnt st fl mat baseReg rows hcls
      hsup hreg hov hstr hsrc, if_neg (fun hc => hc.2.2 hcv)]
  · intro p hp
    obtain ⟨-, -, -, -, -, -, -, -, -, -, h11, h22, -⟩ := hp
    constructor
    · unfold p_c0
      have h1 : Real.sqrt (p.m11 * p.m11) ≤
          Real.sqrt (p.m11 * p.m11 + p.m21 * p.m21 + p.m31 * p.m31) :=
        Real.sqrt_le_sqrt
          (le_trans (le_add_of_nonneg_right (mul_self_nonneg p.m21))
            (le_add_of_nonneg_right (mul_self_nonneg p.m31)))
      rw [Real.sqrt_mul_self_eq_abs] at h1
      exact le_trans (by norm_num) (le_trans h11 h1)
    · unfold p_c1
      have h1 : Real.sqrt (p.m22 * p.m22) ≤
          Real.sqrt (p.m12 * p.m12 + p.m22 * p.m22 + p.m32 * p.m32) :=
        Real.sqrt_le_sqrt
          (le_trans (le_add_of_nonneg_left (mul_self_nonneg p.m12))
            (le_add_of_nonneg_right (mul_self_nonneg p.m32)))
      rw [Real.sqrt_mul_self_eq_abs] at h1
      exact le_trans (by norm_num) (le_trans h22 h1)


/-- Witness for C9: against the projection-like matrix with `_41 = 1000`
(column norms 1), the near-identity view candidate with `_14 = 0.01` produces
a product column norm of 11 — a 1000% relative difference — and is rejected
with the state unchanged; against the canonical projection `matP1` the
identity view passes (0% difference) and is accepted. -/
theorem C9_witness :
    ¬ CrossValidateViewAgainstProjection matViewEps matProjC9 ∧
    (CrossValidateViewAgainstProjection matViewEps matProjC9 ↔
      (|vp_c0 matViewEps matProjC9 - p_c0 matProjC9| / p_c0 matProjC9 < 0.15 ∧
       |vp_c1 matViewEps matProjC9 - p_c1 matProjC9| / p_c1 matProjC9 < 0.15)) ∧
    updateFromClassification defaultConfig 7 1 10 4
        { initialDeviceState with
            currentProj := matProjC9
            hasProj := true
            projDetectedFrame := 7 }
        freshUploadFlags matViewEps 10 4 =
      ({ initialDeviceState with
          currentProj := matProjC9
          hasProj := true
          projDetectedFrame := 7 }, freshUploadFlags) ∧
    CrossValidateViewAgainstProjection identityMatrix matP1 ∧
    updateFromClassification defaultConfig 7 1 10 4
        { initialDeviceState with
            currentProj := matP1
            hasProj := true
            projDetectedFrame := 7 }
        freshUploadFlags identityMatrix 10 4 =
      ({ initialDeviceState with
          currentProj := matP1
          hasProj := true
          projDetectedFrame := 7
          viewLockedShader := 1
          viewLockedRegister := 10
          currentView := identityMatrix
          hasView := true
          viewLastFrame := 7 },
       { freshUploadFlags with structView := true }) ∧
    (1e-6 ≤ p_c0 matP1 ∧ 1e-6 ≤ p_c1 matP1) := by
  have hpc0 : p_c0 matProjC9 = 1 := by
    show Real.sqrt ((1:ℝ) * 1 + 0 * 0 + 0 * 0) = 1
    exact sqrt_eq_of_eq_sq _ 1 (by norm_num) (by norm_num)
  have hpc1 : p_c1 matProjC9 = 1 := by
    show Real.sqrt ((0:ℝ) * 0 + 1 * 1 + 0 * 0) = 1
    exact sqrt_eq_of_eq_sq _ 1 (by norm_num) (by norm_num)
  have hvp0 : vp_c0 matViewEps matProjC9 = 11 := by
    show Real.sqrt
        (((1:ℝ) * 1 + 0 * 0 + 0 * 0 + 0.01 * 1000) *
           ((1:ℝ) * 1 + 0 * 0 + 0 * 0 + 0.01 * 1000) +
         ((0:ℝ) * 1 + 1 * 0 + 0 * 0 + 0 * 1000) *
           ((0:ℝ) * 1 + 1 * 0 + 0 * 0 + 0 * 1000) +
         ((0:ℝ) * 1 + 0 * 0 + 1 * 0 + 0 * 1000) *
           ((0:ℝ) * 1 + 0 * 0 + 1 * 0 + 0 * 1000)) = 11
    exact sqrt_eq_of_eq_sq _ 11 (by norm_num) (by norm_num)
  have hvp1 : vp_c1 matViewEps matProjC9 = 1 := by
    show Real.sqrt
        (((1:ℝ) * 0 + 0 * 1 + 0 * 0 + 0.01 * 0) *
           ((1:ℝ) * 0 + 0 * 1 + 0 * 0 + 0.01 * 0) +
         ((0:ℝ) * 0 + 1 * 1 + 0 * 0 + 0 * 0) *
           ((0:ℝ) * 0 + 1 * 1 + 0 * 0 + 0 * 0) +
         ((0:ℝ) * 0 + 0 * 1 + 1 * 0 + 0 * 0) *
           ((0:ℝ) * 0 + 0 * 1 + 1 * 0 + 0 * 0)) = 1
    exact sqrt_eq_of_eq_sq _ 1 (by norm_num) (by norm_num)
  have hrej : ¬ CrossValidateViewAgainstProjection matViewEps matProjC9 := by
    unfold CrossValidateViewAgainstProjection
    rw [hpc0, hpc1, hvp0]
    rintro (h | h | ⟨h1, -⟩)
    · norm_num at h
    · norm_num at h
    · norm_num [abs_of_pos] at h1
  have hP1c0 : p_c0 matP1 = 1 := by
    show Real.sqrt ((1:ℝ) * 1 + 0 * 0 + 0 * 0) = 1
    exact sqrt_eq_of_eq_sq _ 1 (by norm_num) (by norm_num)
  have hP1c1 : p_c1 matP1 = 1 := by
    show Real.sqrt ((0:ℝ) * 0 + 1 * 1 + 0 * 0) = 1
    exact sqrt_eq_of_eq_sq _ 1 (by norm_num) (by norm_num)
  have hvpP0 : vp_c0 identityMatrix matP1 = 1 := by
    show Real.sqrt
        (((1:ℝ) * 1 + 0 * 0 + 0 * 0 + 0 * 0) * ((1:ℝ) * 1 + 0 * 0 + 0 * 0 + 0 * 0) +
         ((0:ℝ) * 1 + 1 * 0 + 0 * 0 + 0 * 0) * ((0:ℝ) * 1 + 1 * 0 + 0 * 0 + 0 * 0) +
         ((0:ℝ) * 1 + 0 * 0 + 1 * 0 + 0 * 0) * ((0:ℝ) * 1 + 0 * 0 + 1 * 0 + 0 * 0)) = 1
    exact sqrt_eq_of_eq_sq _ 1 (by norm_num) (by norm_num)
  have hvpP1 : vp_c1 identityMatrix matP1 = 1 := by
    show Real.sqrt
        (((1:ℝ) * 0 + 0 * 1 + 0 * 0 + 0 * 0) * ((1:ℝ) * 0 + 0 * 1 + 0 * 0 + 0 * 0) +
         ((0:ℝ) * 0 + 1 * 1 + 0 * 0 + 0 * 0) * ((0:ℝ) * 0 + 1 * 1 + 0 * 0 + 0 * 0) +
         ((0:ℝ) * 0 + 0 * 1 + 1 * 0 + 0 * 0) * ((0:ℝ) * 0 + 0 * 1 + 1 * 0 + 0 * 0)) = 1
    exact sqrt_eq_of_eq_sq _ 1 (by norm_num) (by norm_num)
  have hpass : CrossValidateViewAgainstProjection identityMatrix matP1 := by
    unfold CrossValidateViewAgainstProjection
    rw [hP1c0, hP1c1, hvpP0, hvpP1]
    exact Or.inr (Or.inr (by norm_num))
  refine ⟨hrej, ?_, ?_, hpass, ?_, ?_⟩
  · exact C9_cross_validation_gate.1 matViewEps matProjC9 (by rw [hpc0]; norm_num)
      (by rw [hpc1]; norm_num)
  · exact C9_cross_validation_gate.2.1 defaultConfig 7 1 10 4 _ freshUploadFlags
      matViewEps 10 4 (classify_matViewEps 4 4 10 10) rfl
      (show (-1:ℤ) < 0 by norm_num) rfl rfl (Or.inl rfl) rfl rfl hrej
  · exact C9_cross_validation_gate.2.2.1 defaultConfig 7 1 10 4 _ freshUploadFlags
      identityMatrix 10 4 (classify_identity 4 4 10 10) rfl
      (show (-1:ℤ) < 0 by norm_num) rfl rfl (Or.inl rfl) hpass
  · exact C9_cross_validation_gate.2.2.2 matP1 shapeOk_matP1


/-! ## C6 -/

/-- Shared engine for C6: in non-profile mode with the custom-projection and
inverse-view features off, the emitted transforms are exactly the per-slot
staleness/validity selections and the state is unchanged. -/
theorem emit_noneProfile_slots (cfg : ProxyConfig) (seen mvp : Bool)
    (customProj : Option Mat4) (frame : ℤ) (st : DeviceState)
    (h1 : cfg.emitFixedFunctionTransforms = true)
    (h2 : cfg.setTransformBypassProxyWhenGameProvides = false)
    (h4 : cfg.experimentalCustomProjectionEnabled = false)
    (h5 : cfg.experimentalInverseViewAsWorld = false) :
    EmitFixedFunctionTransforms cfg GameProfileKind.noneProfile seen mvp customProj
        frame st =
      ({ world := some (if 0 ≤ st.worldLastFrame ∧ st.worldLastFrame + 1 < frame then
              identityMatrix
            else if st.hasWorld = true then st.currentWorld else identityMatrix)
         view := some (if 0 ≤ st.viewLastFrame ∧ st.viewLastFrame + 1 < frame then
              identityMatrix
            else if st.hasView = true then st.currentView else identityMatrix)
         proj := some (if 0 ≤ st.projLastFrame ∧ st.projLastFrame + 1 < frame then
              identityMatrix
            else if st.hasProj = true then st.currentProj else identityMatrix) }, st) := by
  unfold EmitFixedFunctionTransforms
  rw [h1, h2, h4, h5]
  rfl

/-- Shared: the World slot emitted in non-profile mode. -/
theorem emit_noneProfile_world (cfg : ProxyConfig) (seen mvp : Bool)
    (customProj : Option Mat4) (frame : ℤ) (st : DeviceState)
    (h1 : cfg.emitFixedFunctionTransforms = true)
    (h2 : cfg.setTransformBypassProxyWhenGameProvides = false)
    (h4 : cfg.experimentalCustomProjectionEnabled = false)
    (h5 : cfg.experimentalInverseViewAsWorld = false) :
    (EmitFixedFunctionTransforms cfg GameProfileKind.noneProfile seen mvp customProj
        frame st).1.world =
      some (if 0 ≤ st.worldLastFrame ∧ st.worldLastFrame + 1 < frame then identityMatrix
        else if st.hasWorld = true then st.currentWorld else identityMatrix) := by
  rw [emit_noneProfile_slots cfg seen mvp customProj frame st h1 h2 h4 h5]

/-- Shared: the View slot emitted in non-profile mode. -/
theorem emit_noneProfile_view (cfg : ProxyConfig) (seen mvp : Bool)
    (customProj : Option Mat4) (frame : ℤ) (st : DeviceState)
    (h1 : cfg.emitFixedFunctionTransforms = true)
    (h2 : cfg.setTransformBypassProxyWhenGameProvides = false)
    (h4 : cfg.experimentalCustomProjectionEnabled = false)
    (h5 : cfg.experimentalInverseViewAsWorld = false) :
    (EmitFixedFunctionTransforms cfg GameProfileKind.noneProfile seen mvp customProj
        frame st).1.view =
      some (if 0 ≤ st.viewLastFrame ∧ st.viewLastFrame + 1 < frame then identityMatrix
        else if st.hasView = true then st.currentView else identityMatrix) := by
  rw [emit_noneProfile_slots cfg seen mvp customProj frame st h1 h2 h4 h5]

/-- Shared: the Projection slot emitted in non-profile mode. -/
theorem emit_noneProfile_proj (cfg : ProxyConfig) (seen mvp : Bool)
    (customProj : Option Mat4) (frame : ℤ) (st : DeviceState)
    (h1 : cfg.emitFixedFunctionTransforms = true)
    (h2 : cfg.setTransformBypassProxyWhenGameProvides = false)
    (h4 : cfg.experimentalCustomProjectionEnabled = false)
    (h5 : cfg.experimentalInverseViewAsWorld = false) :
    (EmitFixedFunctionTransforms cfg GameProfileKind.noneProfile seen mvp customProj
        frame st).1.proj =
      some (if 0 ≤ st.projLastFrame ∧ st.projLastFrame + 1 < frame then identityMatrix
        else if st.hasProj = true then st.currentProj else identityMatrix) := by
  rw [emit_noneProfile_slots cfg seen mvp customProj frame st h1 h2 h4 h5]

/-- C6: per-slot staleness substitution at transform-emission time (in
non-profile mode, with the experimental custom-projection and
inverse-view-as-world features disabled).  A slot whose last-refresh frame is
more than 1 frame behind the current frame counter emits the identity matrix
for that slot only; a slot refreshed in the current or previous frame emits
its stored matrix unchanged. -/
theorem C6_stale_slots_emit_identity (cfg : ProxyConfig) (seen mvp : Bool)
    (customProj : Option Mat4) (frame : ℤ) (st : DeviceState)
    (h1 : cfg.emitFixedFunctionTransforms = true)
    (h2 : cfg.setTransformBypassProxyWhenGameProvides = false)
    (h4 : cfg.experimentalCustomProjectionEnabled = false)
    (h5 : cfg.experimentalInverseViewAsWorld = false) :
    ((0 ≤ st.worldLastFrame ∧ st.worldLastFrame + 1 < frame) →
      (EmitFixedFunctionTransforms cfg GameProfileKind.noneProfile seen mvp customProj
        frame st).1.world = some identityMatrix) ∧
    ((0 ≤ st.viewLastFrame ∧ st.viewLastFrame + 1 < frame) →
      (EmitFixedFunctionTransforms cfg GameProfileKind.noneProfile seen mvp customProj
        frame st).1.view = some identityMatrix) ∧
    ((0 ≤ st.projLastFrame ∧ st.projLastFrame + 1 < frame) →
      (EmitFixedFunctionTransforms cfg GameProfileKind.noneProfile seen mvp customProj
        frame st).1.proj = some identityMatrix) ∧
    (st.hasWorld = true → frame ≤ st.worldLastFrame + 1 →
      (EmitFixedFunctionTransforms cfg GameProfileKind.noneProfile seen mvp customProj
        frame st).1.world = some st.currentWorld) ∧
    (st.hasView = true → frame ≤ st.viewLastFrame + 1 →
      (EmitFixedFunctionTransforms cfg GameProfileKind.noneProfile seen mvp customProj
        frame st).1.view = some st.currentView) ∧
    (st.hasProj = true → frame ≤ st.projLastFrame + 1 →
      (EmitFixedFunctionTransforms cfg GameProfileKind.noneProfile seen mvp customProj
        frame st).1.proj = some st.currentProj) := by
  refine ⟨?_, ?_, ?_, ?_, ?_, ?_⟩
  · intro hw
    rw [emit_noneProfile_world cfg seen mvp customProj frame st h1 h2 h4 h5, if_pos hw]
  · intro hw
    rw [emit_noneProfile_view cfg seen mvp customProj frame st h1 h2 h4 h5, if_pos hw]
  · intro hw
    rw [emit_noneProfile_proj cfg seen mvp customProj frame st h1 h2 h4 h5, if_pos hw]
  · intro hhas hfresh
    rw [emit_noneProfile_world cfg seen mvp customProj frame st h1 h2 h4 h5,
      if_neg (fun hc => absurd hc.2 (not_lt.mpr hfresh)), if_pos hhas]
  · intro hhas hfresh
    rw [emit_noneProfile_view cfg seen mvp customProj frame st h1 h2 h4 h5,
      if_neg (fun hc => absurd hc.2 (not_lt.mpr hfresh)), if_pos hhas]
  · intro hhas hfresh
    rw [emit_noneProfile_proj cfg seen mvp customProj frame st h1 h2 h4 h5,
      if_neg (fun hc => absurd hc.2 (not_lt.mpr hfresh)), if_pos hhas]


/-- Witness for C6 at frame 5: the World slot was last refreshed in frame 2
(stale by more than one frame) and emits identity, while the View slot
(refreshed this frame) and the Projection slot (refreshed last frame) emit
their stored matrices unchanged. -/
theorem C6_witness :
    (EmitFixedFunctionTransforms defaultConfig GameProfileKind.noneProfile false false
        Option.none 5
        { initialDeviceState with
            currentWorld := matWorldA
            hasWorld := true
            worldLastFrame := 2
            currentView := matR90
            hasView := true
            viewLastFrame := 5
            currentProj := matP1
            hasProj := true
            projLastFrame := 4 }).1.world = some identityMatrix ∧
    (EmitFixedFunctionTransforms defaultConfig GameProfileKind.noneProfile false false
        Option.none 5
        { initialDeviceState with
            currentWorld := matWorldA
            hasWorld := true
            worldLastFrame := 2
            currentView := matR90
            hasView := true
            viewLastFrame := 5
            currentProj := matP1
            hasProj := true
            projLastFrame := 4 }).1.view = some matR90 ∧
    (EmitFixedFunctionTransforms defaultConfig GameProfileKind.noneProfile false false
        Option.none 5
        { initialDeviceState with
            currentWorld := matWorldA
            hasWorld := true
            worldLastFrame := 2
            currentView := matR90
            hasView := true
            viewLastFrame := 5
            currentProj := matP1
            hasProj := true
            projLastFrame := 4 }).1.proj = some matP1 := by
  refine ⟨?_, ?_, ?_⟩
  · exact (C6_stale_slots_emit_identity defaultConfig false false Option.none 5 _
      rfl rfl rfl rfl).1 (by constructor <;> simp [initialDeviceState])
  · exact (C6_stale_slots_emit_identity defaultConfig false false Option.none 5 _
      rfl rfl rfl rfl).2.2.2.2.1 (by simp) (by simp [initialDeviceState])
  · exact (C6_stale_slots_emit_identity defaultConfig false false Option.none 5 _
      rfl rfl rfl rfl).2.2.2.2.2 (by simp) (by simp [initialDeviceState])


/-! ## C2 -/

/-- Shared: the matrix built by `CreateProjectionMatrixWithHandedness` passes
the strict projection shape test and recovers its input FOV exactly, given
the scale/depth thresholds of the classifier. -/
theorem createProjection_shapeOk_and_fov (fovY aspect zNear zFar : ℝ)
    (handedness : ProjectionHandedness)
    (hmin : 0.1 ≤ fovY) (hmax : fovY ≤ 2.5)
    (haspect : 0 < aspect)
    (hx : 0.001 ≤ 1 / Real.tan (fovY / 2) / aspect)
    (hy : Real.tan (fovY / 2) ≤ 1000)
    (h33 : 0.0001 ≤ |zFar / (zFar - zNear)|)
    (h43 : 0.0001 ≤ |zNear * zFar / (zFar - zNear)|)
    (hh : handedness ≠ ProjectionHandedness.unknown) :
    ProjectionShapeOk (CreateProjectionMatrixWithHandedness fovY aspect zNear zFar
      handedness) ∧
    recoveredFov (CreateProjectionMatrixWithHandedness fovY aspect zNear zFar
      handedness) = fovY ∧
    (CreateProjectionMatrixWithHandedness fovY aspect zNear zFar handedness).m34 =
      (if handedness = ProjectionHandedness.right then -1 else 1) := by
  have hpos : 0 < fovY / 2 := div_pos (lt_of_lt_of_le (by norm_num) hmin) (by norm_num)
  have hlt : fovY / 2 < Real.pi / 2 :=
    (div_lt_div_iff_of_pos_right (by norm_num : (0:ℝ) < 2)).mpr
      (lt_of_le_of_lt hmax (lt_trans (by norm_num) Real.pi_gt_three))
  have ht : 0 < Real.tan (fovY / 2) := Real.tan_pos_of_pos_of_lt_pi_div_two hpos hlt
  have hyS : 0 < 1 / Real.tan (fovY / 2) := one_div_pos.mpr ht
  have hm11 : (0:ℝ) < 1 / Real.tan (fovY / 2) / aspect := div_pos hyS haspect
  have hm22 : 0.001 ≤ |1 / Real.tan (fovY / 2)| := by
    rw [abs_of_pos hyS]
    exact le_trans (by norm_num) (one_div_le_one_div_of_le ht hy)
  have hm11' : 0.001 ≤ |1 / Real.tan (fovY / 2) / aspect| := by
    rw [abs_of_pos hm11]
    exact hx
  have hfovval : 2 * Real.arctan (1 / |1 / Real.tan (fovY / 2)|) = fovY := by
    rw [abs_of_pos hyS, one_div_one_div,
      Real.arctan_tan (lt_trans (neg_lt_zero.mpr (half_pos Real.pi_pos)) hpos) hlt,
      mul_comm]
    exact div_mul_cancel₀ fovY two_ne_zero
  have hfovlo : (0.01:ℝ) ≤ fovY := le_trans (by norm_num) hmin
  have hfovhi : fovY ≤ 3.13 := le_trans hmax (by norm_num)
  cases handedness with
  | unknown => exact absurd rfl hh
  | left =>
    refine ⟨⟨abs_le_002_of_eq_zero _ rfl, abs_le_002_of_eq_zero _ rfl,
      abs_le_002_of_eq_zero _ rfl, abs_le_002_of_eq_zero _ rfl,
      abs_le_002_of_eq_zero _ rfl, abs_le_002_of_eq_zero _ rfl,
      abs_le_002_of_eq_zero _ rfl, abs_le_002_of_eq_zero _ rfl,
      show abs (|(1:ℝ)| - 1) ≤ 0.05 by rw [abs_one]; norm_num,
      abs_le_005_of_eq_zero _ rfl, hm11', hm22,
      show (0.0001:ℝ) ≤ |zFar / (zFar - zNear)| from h33,
      show (0.0001:ℝ) ≤ |-zNear * zFar / (zFar - zNear)| by
        rw [show -zNear * zFar / (zFar - zNear) = -(zNear * zFar / (zFar - zNear)) by
          ring, abs_neg]
        exact h43,
      ?_, ?_⟩, ?_, by
        show (1:ℝ) =
          if ProjectionHandedness.left = ProjectionHandedness.right then -1 else 1
        rw [if_neg (fun hc => ProjectionHandedness.noConfusion hc)]⟩
    · show (0.01:ℝ) ≤ 2 * Real.arctan (1 / |1 / Real.tan (fovY / 2)|)
      rw [hfovval]
      exact hfovlo
    · show 2 * Real.arctan (1 / |1 / Real.tan (fovY / 2)|) ≤ (3.13:ℝ)
      rw [hfovval]
      exact hfovhi
    · show 2 * Real.arctan (1 / |1 / Real.tan (fovY / 2)|) = fovY
      exact hfovval
  | right =>
    refine ⟨⟨abs_le_002_of_eq_zero _ rfl, abs_le_002_of_eq_zero _ rfl,
      abs_le_002_of_eq_zero _ rfl, abs_le_002_of_eq_zero _ rfl,
      abs_le_002_of_eq_zero _ rfl, abs_le_002_of_eq_zero _ rfl,
      abs_le_002_of_eq_zero _ rfl, abs_le_002_of_eq_zero _ rfl,
      show abs (|(-1:ℝ)| - 1) ≤ 0.05 by rw [abs_neg, abs_one]; norm_num,
      abs_le_005_of_eq_zero _ rfl, hm11', hm22,
      show (0.0001:ℝ) ≤ |zFar / (zNear - zFar)| by
        rw [show zFar / (zNear - zFar) = -(zFar / (zFar - zNear)) by
          rw [show zNear - zFar = -(zFar - zNear) by ring, div_neg], abs_neg]
        exact h33,
      show (0.0001:ℝ) ≤ |zNear * zFar / (zNear - zFar)| by
        rw [show zNear * zFar / (zNear - zFar) = -(zNear * zFar / (zFar - zNear)) by
          rw [show zNear - zFar = -(zFar - zNear) by ring, div_neg], abs_neg]
        exact h43,
      ?_, ?_⟩, ?_, by
        show (-1:ℝ) =
          if ProjectionHandedness.right = ProjectionHandedness.right then -1 else 1
        rw [if_pos rfl]⟩
    · show (0.01:ℝ) ≤ 2 * Real.arctan (1 / |1 / Real.tan (fovY / 2)|)
      rw [hfovval]
      exact hfovlo
    · show 2 * Real.arctan (1 / |1 / Real.tan (fovY / 2)|) ≤ (3.13:ℝ)
      rw [hfovval]
      exact hfovhi
    · show 2 * Real.arctan (1 / |1 / Real.tan (fovY / 2)|) = fovY
      exact hfovval


/-- C2 counterexample: with fovY = pi/2 (inside the configured [0.1, 2.5]
bounds) but aspect = 10000, the constructed projection's `_11` scale drops to
1e-4, below the classifier's 0.001 threshold, and the structural classifier
returns CombinedPerspective, not Projection. -/
theorem C2_counterexample :
    defaultConfig.minFOV ≤ Real.pi / 2 ∧ Real.pi / 2 ≤ defaultConfig.maxFOV ∧
    ClassifyMatrixDeterministic
      (CreateProjectionMatrixWithHandedness (Real.pi / 2) 10000 (1 / 10) 1000
        ProjectionHandedness.left) 4 4 0 0 =
      MatrixClassification.combinedPerspective := by
  have ht4 : Real.tan (Real.pi / 2 / 2) = 1 := by
    rw [show Real.pi / 2 / 2 = Real.pi / 4 by ring, Real.tan_pi_div_four]
  have he : CreateProjectionMatrixWithHandedness (Real.pi / 2) 10000 (1 / 10) 1000
      ProjectionHandedness.left =
      CreateProjectionMatrix (Real.pi / 2) 10000 (1 / 10) 1000 := by
    unfold CreateProjectionMatrixWithHandedness
    rw [if_neg (by simp)]
  have hns : ¬ ProjectionShapeOk
      (CreateProjectionMatrix (Real.pi / 2) 10000 (1 / 10) 1000) := by
    refine not_shapeOk_of_m11_small _ ?_
    rw [show (CreateProjectionMatrix (Real.pi / 2) 10000 (1 / 10) 1000).m11 =
      1 / Real.tan (Real.pi / 2 / 2) / 10000 from rfl, ht4]
    rw [abs_of_pos (by norm_num)]
    norm_num
  have hpr : HasPerspectiveComponent
      (CreateProjectionMatrix (Real.pi / 2) 10000 (1 / 10) 1000) := by
    constructor
    · rw [show (CreateProjectionMatrix (Real.pi / 2) 10000 (1 / 10) 1000).m34 = 1
        from rfl]
      norm_num
    · rw [show (CreateProjectionMatrix (Real.pi / 2) 10000 (1 / 10) 1000).m44 = 0
        from rfl]
      norm_num
  refine ⟨?_, ?_, ?_⟩
  · show (0.1:ℝ) ≤ Real.pi / 2
    exact le_trans (by norm_num) pi_div_two_gt.le
  · show Real.pi / 2 ≤ (2.5:ℝ)
    exact le_trans pi_div_two_lt.le (by norm_num)
  · rw [he]
    unfold ClassifyMatrixDeterministic LooksLikeProjectionStrict
    rw [if_neg hns, if_pos hpr]

/-- C2 as amended: for a projection built by
`CreateProjectionMatrixWithHandedness` with fovY inside the configured
default [0.1, 2.5] bounds, a positive aspect, and scale/depth terms clearing
the classifier's magnitude thresholds (xScale above 0.001, yScale above
0.001 i.e. tan(fovY/2) at most 1000, |_33| and |_43| at least 0.0001), and a
determinate handedness, the structural classifier returns Projection and the
numeric analysis recovers the FOV exactly (so certainly within 1e-3 rad) and
the input handedness. -/
theorem C2_projection_roundtrip (fovY aspect zNear zFar : ℝ)
    (handedness : ProjectionHandedness)
    (hmin : defaultConfig.minFOV ≤ fovY) (hmax : fovY ≤ defaultConfig.maxFOV)
    (haspect : 0 < aspect)
    (hx : 0.001 ≤ 1 / Real.tan (fovY / 2) / aspect)
    (hy : Real.tan (fovY / 2) ≤ 1000)
    (h33 : 0.0001 ≤ |zFar / (zFar - zNear)|)
    (h43 : 0.0001 ≤ |zNear * zFar / (zFar - zNear)|)
    (hh : handedness ≠ ProjectionHandedness.unknown) :
    (∀ (rows : ℤ) (cnt start base : ℕ),
      ClassifyMatrixDeterministic
        (CreateProjectionMatrixWithHandedness fovY aspect zNear zFar handedness)
        rows cnt start base = MatrixClassification.projection) ∧
    AnalyzeProjectionMatrixNumeric
      (CreateProjectionMatrixWithHandedness fovY aspect zNear zFar handedness) =
      some { fovRadians := fovY, handedness := handedness } := by
  simp only [defaultConfig] at hmin hmax
  obtain ⟨hshape, hfov, hm34⟩ := createProjection_shapeOk_and_fov fovY aspect zNear zFar
    handedness hmin hmax haspect hx hy h33 h43 hh
  constructor
  · intro rows cnt start base
    unfold ClassifyMatrixDeterministic LooksLikeProjectionStrict
    rw [if_pos hshape]
  · unfold AnalyzeProjectionMatrixNumeric
    rw [if_pos hshape, hfov]
    cases handedness with
    | unknown => exact absurd rfl hh
    | left =>
      simp only [reduceCtorEq, if_false] at hm34
      rw [if_pos (by rw [hm34]; norm_num)]
    | right =>
      rw [if_pos rfl] at hm34
      rw [if_neg (by rw [hm34]; norm_num)]

/-- Witness for C2, the spec's round trip: fovY = 60 degrees (pi/3), aspect
16/9, near 0.1, far 1000, left-handed — the classifier returns Projection,
the analysis recovers exactly pi/3 left-handed, and in degrees the recovered
FOV is 60, well within the 0.1-degree tolerance. -/
theorem C2_witness :
    ClassifyMatrixDeterministic
      (CreateProjectionMatrixWithHandedness (Real.pi / 3) (16 / 9) (1 / 10) 1000
        ProjectionHandedness.left) 4 4 0 0 = MatrixClassification.projection ∧
    AnalyzeProjectionMatrixNumeric
      (CreateProjectionMatrixWithHandedness (Real.pi / 3) (16 / 9) (1 / 10) 1000
        ProjectionHandedness.left) =
      some { fovRadians := Real.pi / 3, handedness := ProjectionHandedness.left } ∧
    |Real.pi / 3 * (180 / Real.pi) - 60| ≤ 0.1 := by
  have hsq3 : 1 ≤ Real.sqrt 3 := by
    rw [show (1:ℝ) = Real.sqrt 1 from Real.sqrt_one.symm]
    exact Real.sqrt_le_sqrt (by norm_num)
  have hsq3pos : (0:ℝ) < Real.sqrt 3 := by linarith
  have ht6 : Real.tan (Real.pi / 3 / 2) = 1 / Real.sqrt 3 := by
    rw [show Real.pi / 3 / 2 = Real.pi / 6 by ring, Real.tan_eq_sin_div_cos,
      Real.sin_pi_div_six, Real.cos_pi_div_six]
    field_simp
  have hdeg : Real.pi / 3 * (180 / Real.pi) = 60 := by
    field_simp
    ring
  have h := C2_projection_roundtrip (Real.pi / 3) (16 / 9) (1 / 10) 1000
    ProjectionHandedness.left
    (by show (0.1:ℝ) ≤ Real.pi / 3; exact le_trans (by norm_num) pi_div_three_gt.le)
    (by show Real.pi / 3 ≤ (2.5:ℝ); exact le_trans pi_div_three_lt.le (by norm_num))
    (by norm_num)
    (by
      rw [ht6, one_div_one_div]
      calc (0.001:ℝ) ≤ 1 / (16 / 9) := by norm_num
        _ ≤ Real.sqrt 3 / (16 / 9) := by gcongr)
    (by
      rw [ht6]
      exact le_trans (one_div_le_one_div_of_le (by norm_num) hsq3) (by norm_num))
    (by
      rw [abs_of_pos (by norm_num)]
      norm_num)
    (by
      rw [abs_of_pos (by norm_num)]
      norm_num)
    (by simp)
  refine ⟨h.1 4 4 0 0, h.2, ?_⟩
  rw [hdeg]
  norm_num


/-! ## C5 -/

/-- Shared: the first stride-4 window of the synthetic identity bone-palette
upload builds the identity matrix. -/
theorem buildPaletteAtZero :
    TryBuildMatrixFromConstantUpdate paletteUploadData 0 4 0 4 false =
      some identityMatrix := rfl

/-- Shared: the second stride-4 window (floats 16..31) of the synthetic
identity bone-palette upload also builds the identity matrix. -/
theorem buildPaletteAt16 :
    TryBuildMatrixFromConstantUpdate (fun i => paletteUploadData (16 + i)) 4 4 4 4
      false = some identityMatrix := rfl

/-- C5 (code bug): on a 32-vector upload made of 8 disjoint stride-4 blocks
that each build the identity matrix and individually classify as View (the
spec's bone-palette input), `CountStridedCandidates` early-returns at its
second match and yields 2 — never more — so the suppression gate
`CountStridedCandidates(...) > 2` in `SetVertexShaderConstantF` can never
fire and View classification is not suppressed for the upload. -/
theorem C5_suppression_gate_never_fires :
    TryBuildMatrixFromConstantUpdate paletteUploadData 0 4 0 4 false =
      some identityMatrix ∧
    TryBuildMatrixFromConstantUpdate (fun i => paletteUploadData (16 + i)) 4 4 4 4
      false = some identityMatrix ∧
    ClassifyMatrixDeterministic identityMatrix 4 32 0 0 = MatrixClassification.view ∧
    CountStridedCandidates paletteUploadData 0 32 4 MatrixClassification.view = 2 ∧
    ¬ (2 < CountStridedCandidates paletteUploadData 0 32 4 MatrixClassification.view) := by
  have hcount : CountStridedCandidates paletteUploadData 0 32 4
      MatrixClassification.view = 2 := by
    unfold CountStridedCandidates
    show CountStridedAux paletteUploadData 0 32 4 MatrixClassification.view (32+1) 0 0 = 2
    rw [CountStridedAux]
    norm_num [buildPaletteAtZero, classify_identity]
    show CountStridedAux paletteUploadData 0 32 4 MatrixClassification.view (31+1) 4 1 = 2
    rw [CountStridedAux]
    norm_num [buildPaletteAt16, classify_identity]
  refine ⟨buildPaletteAtZero, buildPaletteAt16, classify_identity 4 32 0 0, hcount, ?_⟩
  rw [hcount]
  norm_num

end
